import Mathlib

/-!
Average wage increases stored in static arrays (`awincnf.cpp`).

A shallow embedding of `oactobjs32/piadata/awincnf.cpp` and a verification of
its behaviour.

Conventions of the embedding.

* C++ `int` values are `Int`.  The years that occur are calendar years and the
  only arithmetic on them is `+ 1`, `- 1` and `- 1978`, far from the limits of a
  32-bit integer.  The one place where the width matters is the counter of a loop
  that runs to the last year of a series; the last section of the definitions
  has the constructor and `read` with 32-bit counters (`constructInt`,
  `readInt`), and they agree with `construct` and `read` whenever the last year
  is below `INT_MAX`.
* C++ `double` values are exact rationals (`ℚ`).  The file never computes with a
  wage increase; it only stores and copies the decimal literals of its tables and
  the values handed in by the caller, so a value is identified with the literal
  it was written as.
* A function that can throw returns `Except Err _`.  An exception leaves the
  model with no resulting state; sequences of calls are sequences of calls that
  return.
* `for (year = a; year <= b; year++)` is `forLoop (b + 1 - a).toNat a body`; the
  bounds of all loops of the file are unchanged by their bodies.
-/

/-- Failure of an operation: a `PiaException` carrying its `what()` text, or an
access outside a built-in C++ array (undefined behaviour in the source). -/
inductive Err where
  | pia (what : String)
  | outOfBounds
deriving DecidableEq, Repr

/-- Element `i` of a built-in C++ array, given as the list of its initialisers. -/
def cArrayGet {α : Type} (xs : List α) (i : Int) : Except Err α :=
  if 0 ≤ i then
    match xs[i.toNat]? with
    | some x => .ok x
    | none => .error Err.outOfBounds
  else .error Err.outOfBounds

/-- The loop `for (i = start; ...; i++) body`, run for `n` iterations. -/
def forLoop {σ : Type} (n : Nat) (start : Int) (body : Int → σ → Except Err σ) (s : σ) :
    Except Err σ :=
  match n with
  | 0 => .ok s
  | k + 1 =>
    match body start s with
    | .ok s1 => forLoop k (start + 1) body s1
    | .error e => .error e

/-! ## `DoubleAnnual` -/

/-- Modelled from the spec: the class `DoubleAnnual` (the spec's AnnualSeries) is
declared in a header that is not part of this file.  It is "a mapping from integer
year → double, covering a fixed inclusive year range". -/
structure DoubleAnnual where
  baseYear : Int
  lastYear : Int
  theData : Int → ℚ

namespace DoubleAnnual

/-- Modelled from the spec: text of the RangeError raised by `DoubleAnnual`. -/
def rangeErrorText : String := "RangeError: year out of range"

/-- Modelled from the spec: the constructor `DoubleAnnual(yr1, yr2)`, a series
over the years `yr1 .. yr2`.  What a new series holds is not said; it is the
argument `fresh`. -/
def create (fresh : Int → ℚ) (yr1 yr2 : Int) : DoubleAnnual :=
  { baseYear := yr1, lastYear := yr2, theData := fresh }

/-- Modelled from the spec: accessor `firstYear()` (`getBaseYear()` in the code). -/
def getBaseYear (d : DoubleAnnual) : Int := d.baseYear

/-- Modelled from the spec: accessor `lastYear()` (`getLastYear()` in the code). -/
def getLastYear (d : DoubleAnnual) : Int := d.lastYear

/-- Modelled from the spec: `get(year)`, reading `d[year]`; "fails with RangeError
if `year` outside [firstYear, lastYear]". -/
def get (d : DoubleAnnual) (year : Int) : Except Err ℚ :=
  if d.baseYear ≤ year ∧ year ≤ d.lastYear then .ok (d.theData year)
  else .error (Err.pia rangeErrorText)

/-- Modelled from the spec: `set(year, value)`, the assignment `d[year] = value`;
"fails with RangeError if `year` outside [firstYear, lastYear]". -/
def set (d : DoubleAnnual) (year : Int) (value : ℚ) : Except Err DoubleAnnual :=
  if d.baseYear ≤ year ∧ year ≤ d.lastYear then
    .ok { d with theData := fun z => if z = year then value else d.theData z }
  else .error (Err.pia rangeErrorText)

/-- Modelled from the spec: `assign(source, startYear, endYear)` "copies
`source[year]` into `this[year]` for each year in the overlap of
`[startYear, endYear]` and both series' ranges"; it fails with RangeError "only
when the caller's range is entirely outside this series' bounds — otherwise
silently restricts to the valid overlap". -/
def assign (d source : DoubleAnnual) (startYear endYear : Int) : Except Err DoubleAnnual :=
  if endYear < d.baseYear ∨ d.lastYear < startYear then .error (Err.pia rangeErrorText)
  else
    .ok { d with theData := fun z =>
      if startYear ≤ z ∧ z ≤ endYear ∧ d.baseYear ≤ z ∧ z ≤ d.lastYear
          ∧ source.baseYear ≤ z ∧ z ≤ source.lastYear
      then source.theData z else d.theData z }

/-- Modelled from the spec: `assign(constant, startYear, endYear)`, "same
semantics, filling with a single value". -/
def assignConst (d : DoubleAnnual) (constant : ℚ) (startYear endYear : Int) :
    Except Err DoubleAnnual :=
  if endYear < d.baseYear ∨ d.lastYear < startYear then .error (Err.pia rangeErrorText)
  else
    .ok { d with theData := fun z =>
      if startYear ≤ z ∧ z ≤ endYear ∧ d.baseYear ≤ z ∧ z ≤ d.lastYear
      then constant else d.theData z }

end DoubleAnnual

/-! ## Constants declared outside the file -/

/-- Modelled from the spec: `YEAR79` of `oactcnst.h`, the calendar year 1979
(`YEAR78 = YEAR79 - 1` is "the first historical year", 1978). -/
def YEAR79 : Int := 1979

/-- Modelled from the spec: `BaseYearNonFile::YEAR`, the base year, declared in
`BaseYearNonFile.h`.  The tables of the file fix it: the historical loop fills
`1978 .. YEAR - 2` from the 44 values of "1978-2021", and the projected table
"years 2022-2037" starts at `YEAR - 1`. -/
def BaseYearNonFile.YEAR : Int := 2023

/-- Modelled from the spec: `AssumptionType::isTR`, the external predicate that
recognises the Trustees Report alternatives, numbers 1 to N = 4. -/
def AssumptionType.isTR (altNum : Int) : Bool := decide (1 ≤ altNum ∧ altNum ≤ 4)

/-- Modelled from the spec: `AssumptionType::isNotTR`, the complement of `isTR`. -/
def AssumptionType.isNotTR (altNum : Int) : Bool := !AssumptionType.isTR altNum

/-- Modelled from the spec: `AssumptionType::FLAT`, the first alternative number
that is not a Trustees Report alternative (the spec's `firstNonTrOffset`). -/
def AssumptionType.FLAT : Int := 5

/-! ## `AwincNonFile` -/

/-- Number of Trustees Report alternatives (size of `titletrOriginal`,
`awincult` and of the first dimension of `awincprojtrOriginal`). -/
def NUMASSUMSETS : Nat := 4

/-- Number of projected years in a row of `awincprojtrOriginal`. -/
def NUMPROJYEARS : Int := 16

/-- Modelled from the spec: the members of the base class `AwincDoc`, declared
outside the file: the engine's first year (`getFirstYear()`), the active series
`awinc` and the active title `awincTitle`. -/
structure AwincDoc where
  firstYear : Int
  awinc : DoubleAnnual
  awincTitle : String

/-- The object: the members inherited from `AwincDoc`, the stored series
`awincprojtr[NUMASSUMSETS]` (each pointer is the series it owns) and the stored
titles `titletr[NUMASSUMSETS]`. -/
structure AwincNonFile extends AwincDoc where
  awincprojtr : Fin NUMASSUMSETS → DoubleAnnual
  titletr : Fin NUMASSUMSETS → String

namespace AwincNonFile

/-- Historical average wage increases, 1978-2021. -/
def awincHist : List ℚ := [
                         7.941048,  8.747891,  9.007392,
  10.066281,  5.505224,  4.871540,  5.878443,  4.260533,
   2.968106,  6.377448,  4.925132,  3.959390,  4.619158,
   3.726559,  5.152396,  0.860023,  2.683910,  4.008373,
   4.890539,  5.835092,  5.233866,  5.572834,  5.529993,
   2.385645,  1.002888,  2.444538,  4.648767,  3.659027,
   4.596306,  4.538179,  2.300406, -1.508069,  2.363503,
   3.133333,  3.122550,  1.278133,  3.549622,  3.479039,
   1.130011,  3.453260,  3.624486,  3.747550,  2.825527,
   8.891955
]

/-- Titles for 2023 Trustees Report. -/
def titletrOriginal : List String := [
  "2023 Trustees Report Alternative I",
  "2023 Trustees Report Alternative II",
  "2023 Trustees Report Alternative III",
  "No increase beyond 2021 average wage"
]

/-- Average wage increases for 2023 Trustees Report, years 2022-2037. -/
def awincprojtrOriginal : List (List ℚ) := [
  [           4.716759, 4.745898, 5.743597, 6.144177,
    5.641394, 5.360065, 5.300424, 5.269018, 5.250727,
    5.239157, 5.034754, 4.937419, 4.920986, 4.918182,
    4.917264, 4.915780
  ],
  [           4.775744, 4.221325, 3.749835, 4.057276,
    4.112041, 4.095834, 4.027539, 4.032133, 3.999020,
    3.981322, 3.776836, 3.680704, 3.664819, 3.662106,
    3.661813, 3.662627
  ],
  [           4.762652, 1.995744, 3.597890, 3.696917,
    3.478052, 3.445427, 2.948577, 2.756800, 2.734542,
    2.727163, 2.519273, 2.429264, 2.416035, 2.413163,
    2.413695, 2.417885
  ],
  [ 0.0, 0.0, 0.0, 0.0, 0.0,
    0.0, 0.0, 0.0, 0.0, 0.0,
    0.0, 0.0, 0.0, 0.0, 0.0,
    0.0
  ]
]

/-- Ultimate average wage increases for 2023 Trustees Report. -/
def awincult : List ℚ := [
   4.8, 3.6, 2.4, 0.0
]

/-- Position `i` of the member arrays `awincprojtr` and `titletr`. -/
def slot (i : Int) : Except Err (Fin NUMASSUMSETS) :=
  if h : 0 ≤ i ∧ i < (NUMASSUMSETS : Int) then
    .ok ⟨i.toNat, by have := h.1; have := h.2; omega⟩
  else .error Err.outOfBounds

/-- Accessor `getFirstYear()` of the base class. -/
def getFirstYear (s : AwincNonFile) : Int := s.firstYear

/-- Body of the `try` block of `read`.  The loop counters are `Int` here;
`readBodyInt` has them as 32-bit `int`. -/
def readBody (s : AwincNonFile) (altNum : Int) : Except Err AwincNonFile := do
  -- set title
  let i ← slot (altNum - 1)
  let title ← cArrayGet titletrOriginal (altNum - 1)
  let s1 : AwincNonFile := { s with titletr := Function.update s.titletr i title }
  -- Set last year of projected average wage increases, inclusive of YEAR
  let LASTYEAR : Int := BaseYearNonFile.YEAR + NUMPROJYEARS - 2
  -- set values in short-range
  let temp := s1.awincprojtr i
  let temp ← forLoop (LASTYEAR + 1 - (BaseYearNonFile.YEAR - 1)).toNat (BaseYearNonFile.YEAR - 1)
    (fun year t => do
      let row ← cArrayGet awincprojtrOriginal (altNum - 1)
      let v ← cArrayGet row (year - BaseYearNonFile.YEAR + 1)
      t.set year v) temp
  -- set values in long-range
  let temp ← forLoop (temp.getLastYear + 1 - (LASTYEAR + 1)).toNat (LASTYEAR + 1)
    (fun year t => do
      let v ← cArrayGet awincult (altNum - 1)
      t.set year v) temp
  pure { s1 with awincprojtr := Function.update s1.awincprojtr i temp }

/-- Restore values to original values: `AwincNonFile::read`.  A `PiaException`
of the body is caught and thrown again with the text
`"In AwincNonFile::read: "` put in front. -/
def read (s : AwincNonFile) (altNum : Int) : Except Err AwincNonFile :=
  match readBody s altNum with
  | .error (Err.pia what) => .error (Err.pia ("In AwincNonFile::read: " ++ what))
  | r => r

/-- Dummy function: `AwincNonFile::write`. -/
def write (s : AwincNonFile) (_altNum : Int) : Except Err AwincNonFile := .ok s

/-- Sets data for one alternative, using the stored data for the specified
alternative: `AwincNonFile::setData(int)`. -/
def setData (s : AwincNonFile) (altNum : Int) : Except Err AwincNonFile := do
  let i1 := max s.getFirstYear s.awinc.getBaseYear
  if AssumptionType.isTR altNum then
    let i ← slot (altNum - 1)
    let a ← s.awinc.assign (s.awincprojtr i) i1 s.awinc.getLastYear
    pure { s with awinc := a }
  else
    let a ← s.awinc.assignConst 0.0 i1 s.awinc.getLastYear
    pure { s with awinc := a }

/-- Sets data for one alternative, storing the data for the specified
alternative, then setting the current data to that data:
`AwincNonFile::setData(int, const DoubleAnnual&)`. -/
def setDataWith (s : AwincNonFile) (altNum : Int) (newData : DoubleAnnual) :
    Except Err AwincNonFile := do
  if AssumptionType.isTR altNum then
    let i ← slot (altNum - 1)
    let d ← (s.awincprojtr i).assign newData s.getFirstYear (s.awincprojtr i).getLastYear
    setData { s with awincprojtr := Function.update s.awincprojtr i d } altNum
  else
    setData s altNum

/-- Sets the current title, using the title stored for the specified
alternative: `AwincNonFile::setTitle(int)`.  The name table `avgwage` is declared
outside the file and is an argument here. -/
def setTitle (avgwage : List String) (s : AwincNonFile) (altNum : Int) :
    Except Err AwincNonFile := do
  if AssumptionType.isNotTR altNum then
    let t ← cArrayGet avgwage (altNum - AssumptionType.FLAT)
    pure { s with awincTitle := t }
  else
    let i ← slot (altNum - 1)
    pure { s with awincTitle := s.titletr i }

/-- Sets the current title, storing the title for the specified alternative,
then setting the current title to that title:
`AwincNonFile::setTitle(int, const std::string&)`. -/
def setTitleWith (avgwage : List String) (s : AwincNonFile) (altNum : Int) (newTitle : String) :
    Except Err AwincNonFile := do
  if AssumptionType.isNotTR altNum then
    let t ← cArrayGet avgwage (altNum - AssumptionType.FLAT)
    pure { s with awincTitle := t }
  else
    let i ← slot (altNum - 1)
    let s1 : AwincNonFile := { s with titletr := Function.update s.titletr i newTitle }
    pure { s1 with awincTitle := s1.titletr i }

/-- The members of a new object before the body of the constructor runs: the
base class is constructed (`doc`), the titles are empty strings and no series is
allocated yet (an empty series stands for a pointer that is not set). -/
def blank (doc : AwincDoc) : AwincNonFile :=
  { toAwincDoc := doc
    awincprojtr := fun _ => DoubleAnnual.create (fun _ => 0) 0 (-1)
    titletr := fun _ => "" }

/-- One iteration of the loop of the constructor, for the alternative at
position `i`. -/
def constructAlt (fresh : Int → ℚ) (yr1 yr2 : Int) (i : Int) (s : AwincNonFile) :
    Except Err AwincNonFile := do
  let YEAR78 : Int := YEAR79 - 1
  let k ← slot i
  let temp := DoubleAnnual.create fresh yr1 yr2
  -- Set historical data
  let temp ← forLoop (BaseYearNonFile.YEAR - 1 - YEAR78).toNat YEAR78
    (fun year t => do
      let v ← cArrayGet awincHist (year - YEAR78)
      t.set year v) temp
  -- set title and projected values
  read { s with awincprojtr := Function.update s.awincprojtr k temp } (i + 1)

/-- Initializes projected average wage increase info with latest Trustees Report
assumptions: the constructor `AwincNonFile(newIstart, newMaxyear)`.  `doc` is the
base class as `AwincDoc(newIstart, newMaxyear)` leaves it and `fresh` is the
content of a newly allocated series. -/
def construct (doc : AwincDoc) (fresh : Int → ℚ) (newIstart newMaxyear : Int) :
    Except Err AwincNonFile :=
  -- Set last year of projected average wage increases, inclusive of YEAR - 1.
  let LASTYEAR : Int := BaseYearNonFile.YEAR + NUMPROJYEARS - 2
  -- ensure bounds are great enough to hold data
  let YEAR78 : Int := YEAR79 - 1
  let yr1 := min YEAR78 newIstart
  let yr2 := max LASTYEAR newMaxyear
  forLoop NUMASSUMSETS 0 (constructAlt fresh yr1 yr2) (blank doc)

end AwincNonFile

/-! ## The loop counters as 32-bit `int`

The definitions above count loops in `Int`, which is enough for what a call
leaves behind when it returns.  Whether a call returns for all arguments also
depends on the width of the counters: `for (int year = ...; year <= last; year++)`
increments `year` once more after the last iteration.  The definitions below are
the constructor and `read` again, with every loop counter a 32-bit `int`. -/

/-- Largest value of a C++ `int` of 32 bits. -/
def INT_MAX : Int := 2147483647

/-- Failure of an operation when the loop counters are 32-bit `int`: a failure
that the operation has over `Int` as well (`raised`), or the signed overflow of a
loop counter (undefined behaviour in the source). -/
inductive MachineErr where
  | raised (e : Err)
  | signedOverflow
deriving DecidableEq, Repr

/-- A result over `Err` as a result over `MachineErr`. -/
def liftErr {α : Type} : Except Err α → Except MachineErr α
  | .ok a => .ok a
  | .error e => .error (MachineErr.raised e)

/-- The loop `for (int i = start; ...; i++) body`, run for `n` iterations, with
the counter a 32-bit `int`: the increment `i++` that follows an iteration is a
signed overflow when `i` is `INT_MAX`. -/
def forLoopInt {σ : Type} (n : Nat) (start : Int) (body : Int → σ → Except MachineErr σ)
    (s : σ) : Except MachineErr σ :=
  match n with
  | 0 => .ok s
  | k + 1 =>
    match body start s with
    | .ok s1 =>
      if start + 1 ≤ INT_MAX then forLoopInt k (start + 1) body s1
      else .error MachineErr.signedOverflow
    | .error e => .error e

namespace AwincNonFile

/-- Body of the `try` block of `read`, with 32-bit loop counters. -/
def readBodyInt (s : AwincNonFile) (altNum : Int) : Except MachineErr AwincNonFile := do
  -- set title
  let i ← liftErr (slot (altNum - 1))
  let title ← liftErr (cArrayGet titletrOriginal (altNum - 1))
  let s1 : AwincNonFile := { s with titletr := Function.update s.titletr i title }
  -- Set last year of projected average wage increases, inclusive of YEAR
  let LASTYEAR : Int := BaseYearNonFile.YEAR + NUMPROJYEARS - 2
  -- set values in short-range
  let temp := s1.awincprojtr i
  let temp ← forLoopInt (LASTYEAR + 1 - (BaseYearNonFile.YEAR - 1)).toNat
    (BaseYearNonFile.YEAR - 1)
    (fun year t => liftErr (do
      let row ← cArrayGet awincprojtrOriginal (altNum - 1)
      let v ← cArrayGet row (year - BaseYearNonFile.YEAR + 1)
      t.set year v)) temp
  -- set values in long-range
  let temp ← forLoopInt (temp.getLastYear + 1 - (LASTYEAR + 1)).toNat (LASTYEAR + 1)
    (fun year t => liftErr (do
      let v ← cArrayGet awincult (altNum - 1)
      t.set year v)) temp
  pure { s1 with awincprojtr := Function.update s1.awincprojtr i temp }

/-- Restore values to original values: `AwincNonFile::read`, with 32-bit loop
counters.  Only a `PiaException` is caught and thrown again. -/
def readInt (s : AwincNonFile) (altNum : Int) : Except MachineErr AwincNonFile :=
  match readBodyInt s altNum with
  | .error (MachineErr.raised (Err.pia what)) =>
    .error (MachineErr.raised (Err.pia ("In AwincNonFile::read: " ++ what)))
  | r => r

/-- One iteration of the loop of the constructor, with 32-bit loop counters. -/
def constructAltInt (fresh : Int → ℚ) (yr1 yr2 : Int) (i : Int) (s : AwincNonFile) :
    Except MachineErr AwincNonFile := do
  let YEAR78 : Int := YEAR79 - 1
  let k ← liftErr (slot i)
  let temp := DoubleAnnual.create fresh yr1 yr2
  -- Set historical data
  let temp ← forLoopInt (BaseYearNonFile.YEAR - 1 - YEAR78).toNat YEAR78
    (fun year t => liftErr (do
      let v ← cArrayGet awincHist (year - YEAR78)
      t.set year v)) temp
  -- set title and projected values
  readInt { s with awincprojtr := Function.update s.awincprojtr k temp } (i + 1)

/-- The constructor `AwincNonFile(newIstart, newMaxyear)`, with 32-bit loop
counters. -/
def constructInt (doc : AwincDoc) (fresh : Int → ℚ) (newIstart newMaxyear : Int) :
    Except MachineErr AwincNonFile :=
  -- Set last year of projected average wage increases, inclusive of YEAR - 1.
  let LASTYEAR : Int := BaseYearNonFile.YEAR + NUMPROJYEARS - 2
  -- ensure bounds are great enough to hold data
  let YEAR78 : Int := YEAR79 - 1
  let yr1 := min YEAR78 newIstart
  let yr2 := max LASTYEAR newMaxyear
  forLoopInt NUMASSUMSETS 0 (constructAltInt fresh yr1 yr2) (blank doc)

end AwincNonFile

/-! ## Notions used to state the properties -/

namespace DoubleAnnual

/-- The series `d` with the years `lo .. lo + n - 1` set to the values `g`. -/
def fill (d : DoubleAnnual) (lo : Int) (n : Nat) (g : Int → ℚ) : DoubleAnnual :=
  { d with theData := fun z => if lo ≤ z ∧ z < lo + n then g z else d.theData z }

/-- The series `d` after a successful `assign(source, startYear, endYear)`. -/
def copied (d source : DoubleAnnual) (startYear endYear : Int) : DoubleAnnual :=
  { d with theData := fun z =>
      if startYear ≤ z ∧ z ≤ endYear ∧ d.baseYear ≤ z ∧ z ≤ d.lastYear
          ∧ source.baseYear ≤ z ∧ z ≤ source.lastYear
      then source.theData z else d.theData z }

/-- The series `d` after a successful `assign(constant, startYear, endYear)`. -/
def filled (d : DoubleAnnual) (constant : ℚ) (startYear endYear : Int) : DoubleAnnual :=
  { d with theData := fun z =>
      if startYear ≤ z ∧ z ≤ endYear ∧ d.baseYear ≤ z ∧ z ≤ d.lastYear
      then constant else d.theData z }

end DoubleAnnual

namespace AwincNonFile

/-- Value of the historical record for `year`: `awincHist[year - YEAR78]`. -/
def histAt (year : Int) : ℚ := awincHist.getD (year - (YEAR79 - 1)).toNat 0

/-- Value of the short-range table of the alternative at position `k` for `year`:
`awincprojtrOriginal[k][year - YEAR + 1]`. -/
def projAt (k : Fin NUMASSUMSETS) (year : Int) : ℚ :=
  (awincprojtrOriginal.getD k.val []).getD (year - BaseYearNonFile.YEAR + 1).toNat 0

/-- Ultimate rate of the alternative at position `k`: `awincult[k]`. -/
def ultAt (k : Fin NUMASSUMSETS) : ℚ := awincult.getD k.val 0

/-- Published title of the alternative at position `k`: `titletrOriginal[k]`. -/
def titleAt (k : Fin NUMASSUMSETS) : String := titletrOriginal.getD k.val ""

/-- The series `d` after the two loops of `read` for the alternative at
position `k`. -/
def restored (k : Fin NUMASSUMSETS) (d : DoubleAnnual) : DoubleAnnual :=
  (d.fill 2022 16 (projAt k)).fill 2038 (d.lastYear + 1 - 2038).toNat (fun _ => ultAt k)

/-- Every stored series covers at least the years the constructor asks for,
`YEAR78 .. BaseYearNonFile::YEAR + NUMPROJYEARS - 2`.  The constructor allocates
every series over such a range and no operation changes the range of a series. -/
def SeriesRange (s : AwincNonFile) : Prop :=
  ∀ k : Fin NUMASSUMSETS, (s.awincprojtr k).getBaseYear ≤ YEAR79 - 1 ∧
    BaseYearNonFile.YEAR + NUMPROJYEARS - 2 ≤ (s.awincprojtr k).getLastYear

/-- The object the constructor builds, in closed form. -/
def built (doc : AwincDoc) (fresh : Int → ℚ) (yr1 yr2 : Int) : AwincNonFile :=
  { toAwincDoc := doc
    awincprojtr := fun k => restored k ((DoubleAnnual.create fresh yr1 yr2).fill 1978 44 histAt)
    titletr := titleAt }

/-- Position of alternative 1 in the member arrays. -/
def slotOne : Fin NUMASSUMSETS := ⟨0, by decide⟩

/-- A base class for the examples: the engine starts in 1951 and its active
series covers 1937 .. 2100. -/
def sampleDoc : AwincDoc :=
  { firstYear := 1951
    awinc := DoubleAnnual.create (fun _ => 0) 1937 2100
    awincTitle := "" }

/-- A base class for the examples whose engine starts in the base year 2023. -/
def sampleDocLate : AwincDoc :=
  { firstYear := 2023
    awinc := DoubleAnnual.create (fun _ => 0) 1937 2100
    awincTitle := "" }

/-- A base class for the examples whose engine starts in 2000, inside the
historical years. -/
def sampleDocMid : AwincDoc :=
  { firstYear := 2000
    awinc := DoubleAnnual.create (fun _ => 0) 1937 2100
    awincTitle := "" }

/-- A store for the examples: the engine starts in 2023, every stored series
covers 1951 .. 2100 and holds the value 7 in every year, and every stored title
is "custom". -/
def sampleStore : AwincNonFile :=
  { toAwincDoc := sampleDocLate
    awincprojtr := fun _ => DoubleAnnual.create (fun _ => 7) 1951 2100
    titletr := fun _ => "custom" }

/-- Content of a new series in the examples: zero in every year. -/
def sampleFresh : Int → ℚ := fun _ => 0

/-- A call of one of the public member functions of the object. -/
inductive Call where
  | read (altNum : Int)
  | write (altNum : Int)
  | setData (altNum : Int)
  | setDataWith (altNum : Int) (newData : DoubleAnnual)
  | setTitle (altNum : Int)
  | setTitleWith (altNum : Int) (newTitle : String)

/-- Effect of one call on the object. -/
def Call.run (avgwage : List String) (s : AwincNonFile) : Call → Except Err AwincNonFile
  | .read altNum => s.read altNum
  | .write altNum => s.write altNum
  | .setData altNum => s.setData altNum
  | .setDataWith altNum newData => s.setDataWith altNum newData
  | .setTitle altNum => s.setTitle avgwage altNum
  | .setTitleWith altNum newTitle => s.setTitleWith avgwage altNum newTitle

/-- Effect of a sequence of calls, each made on the object the previous one
left. -/
def runCalls (avgwage : List String) (s : AwincNonFile) : List Call → Except Err AwincNonFile
  | [] => .ok s
  | c :: cs =>
    match c.run avgwage s with
    | .ok s1 => runCalls avgwage s1 cs
    | .error e => .error e

/-- An override series for the examples: the value 1 in every year of
1900 .. 2200. -/
def sampleCustom : DoubleAnnual := DoubleAnnual.create (fun _ => 1) 1900 2200

/-- The published value of alternative `altNum` for `year`, in the words of the
spec: "values for years before the base year equal the historical record; values
within the short-range window equal the alternative's short-range table; values
beyond the window equal the alternative's ultimate rate", the window being
"closed at `baseYear - 1 .. baseYear + windowLength - 2`" and the table's first
entry belonging to `baseYear - 1`. -/
def publishedSplice (altNum year : Int) : Except Err ℚ :=
  if year < BaseYearNonFile.YEAR - 1 then cArrayGet awincHist (year - (YEAR79 - 1))
  else if year ≤ BaseYearNonFile.YEAR + NUMPROJYEARS - 2 then
    cArrayGet awincprojtrOriginal (altNum - 1) >>= fun row =>
      cArrayGet row (year - (BaseYearNonFile.YEAR - 1))
  else cArrayGet awincult (altNum - 1)

/-- A base class for the examples whose active series ends in 2030, before the
last short-range year. -/
def sampleDocShort : AwincDoc :=
  { firstYear := 1951
    awinc := DoubleAnnual.create (fun _ => 0) 1937 2030
    awincTitle := "" }

/-- An override series for the examples that covers 3000 .. 3001 only and so
shares no year with the series of the example store. -/
def sampleCustomFar : DoubleAnnual := DoubleAnnual.create (fun _ => 1) 3000 3001

/-- An override series for the examples that covers 2030 .. 2040 only. -/
def sampleCustomShort : DoubleAnnual := DoubleAnnual.create (fun _ => 1) 2030 2040

end AwincNonFile

/-! ## Auxiliary facts -/

theorem cArrayGet_natCast {α : Type} (xs : List α) (i : Nat) (dflt : α) (h : i < xs.length) :
    cArrayGet xs (i : Int) = .ok (xs.getD i dflt) := by
  unfold cArrayGet
  have h0 : (0 : Int) ≤ (i : Int) := Int.ofNat_nonneg i
  simp only [h0, if_true, Int.toNat_ofNat]
  rw [List.getElem?_eq_getElem h, List.getD_eq_getElem?_getD, List.getElem?_eq_getElem h]
  rfl

theorem cArrayGet_of_bounds {α : Type} (xs : List α) (i : Int) (dflt : α) (h0 : 0 ≤ i)
    (h1 : i < xs.length) : cArrayGet xs i = .ok (xs.getD i.toNat dflt) := by
  obtain ⟨n, rfl⟩ := Int.eq_ofNat_of_zero_le h0
  have hn : n < xs.length := by exact_mod_cast h1
  simpa using cArrayGet_natCast xs n dflt hn

theorem cArrayGet_neg {α : Type} (xs : List α) (i : Int) (h : i < 0) :
    cArrayGet xs i = .error Err.outOfBounds := by
  unfold cArrayGet
  have : ¬ (0 ≤ i) := by omega
  simp [this]

theorem cArrayGet_of_length_le {α : Type} (xs : List α) (i : Int) (h : (xs.length : Int) ≤ i) :
    cArrayGet xs i = .error Err.outOfBounds := by
  unfold cArrayGet
  have h0 : 0 ≤ i := le_trans (Int.ofNat_nonneg _) h
  have hn : xs.length ≤ i.toNat := by omega
  simp [h0, List.getElem?_eq_none hn]

namespace DoubleAnnual

theorem fill_zero (d : DoubleAnnual) (lo : Int) (g : Int → ℚ) : d.fill lo 0 g = d := by
  cases d
  simp only [fill, Nat.cast_zero, add_zero]
  congr 1
  funext z
  have : ¬ (lo ≤ z ∧ z < lo) := by omega
  simp [this]

theorem forLoop_set (g : Int → ℚ) (body : Int → DoubleAnnual → Except Err DoubleAnnual) :
    ∀ (n : Nat) (lo : Int) (d : DoubleAnnual),
      (∀ y t, lo ≤ y → y < lo + n → body y t = t.set y (g y)) →
      d.baseYear ≤ lo → lo + n ≤ d.lastYear + 1 →
      forLoop n lo body d = .ok (d.fill lo n g) := by
  intro n
  induction n with
  | zero =>
    intro lo d _ _ _
    simp [forLoop, fill_zero]
  | succ k ih =>
    intro lo d hbody hlo hhi
    have hb := hbody lo d (le_refl _) (by omega)
    have hin : d.baseYear ≤ lo ∧ lo ≤ d.lastYear := ⟨hlo, by omega⟩
    simp only [forLoop, hb, set, hin, and_self, if_true]
    rw [ih (lo + 1) _ (fun y t h1 h2 => hbody y t (by omega) (by omega)) (by simp; omega)
      (by simp; omega)]
    congr 1
    cases d
    simp only [fill]
    congr 1
    funext z
    split_ifs with h1 h2 h3 h4 h5 <;> first | rfl | (exfalso; omega) | (subst h3; rfl)

end DoubleAnnual

namespace AwincNonFile

theorem slot_natCast (k : Fin NUMASSUMSETS) : slot ((k.val : Int) + 1 - 1) = .ok k := by
  have h : 0 ≤ (k.val : Int) + 1 - 1 ∧ (k.val : Int) + 1 - 1 < (NUMASSUMSETS : Int) := by
    have := k.isLt
    constructor <;> omega
  unfold slot
  rw [dif_pos h]
  congr 1
  apply Fin.ext
  simp

theorem proj_row_length (k : Fin NUMASSUMSETS) :
    (awincprojtrOriginal.getD k.val []).length = 16 := by
  fin_cases k <;> rfl

theorem read_short_body (k : Fin NUMASSUMSETS) (y : Int) (t : DoubleAnnual)
    (h1 : 2022 ≤ y) (h2 : y < 2022 + ((16 : Nat) : Int)) :
    (do
      let row ← cArrayGet awincprojtrOriginal ((k.val : Int) + 1 - 1)
      let v ← cArrayGet row (y - BaseYearNonFile.YEAR + 1)
      t.set y v) = t.set y (projAt k y) := by
  have hk : (k.val : Int) + 1 - 1 = (k.val : Int) := by ring
  have hlen : k.val < awincprojtrOriginal.length := k.isLt
  rw [hk, cArrayGet_natCast awincprojtrOriginal k.val [] hlen]
  have hb : (0 : Int) ≤ y - BaseYearNonFile.YEAR + 1 := by
    simp only [BaseYearNonFile.YEAR]; omega
  have hu : y - BaseYearNonFile.YEAR + 1 < ((awincprojtrOriginal.getD k.val []).length : Int) := by
    rw [proj_row_length]; simp only [BaseYearNonFile.YEAR]; omega
  show (cArrayGet (awincprojtrOriginal.getD k.val []) (y - BaseYearNonFile.YEAR + 1) >>=
      fun v => t.set y v) = _
  rw [cArrayGet_of_bounds _ _ 0 hb hu]
  rfl

theorem read_long_body (k : Fin NUMASSUMSETS) (y : Int) (t : DoubleAnnual) :
    (do
      let v ← cArrayGet awincult ((k.val : Int) + 1 - 1)
      t.set y v) = t.set y (ultAt k) := by
  have hk : (k.val : Int) + 1 - 1 = (k.val : Int) := by ring
  have hlen : k.val < awincult.length := k.isLt
  rw [hk, cArrayGet_natCast awincult k.val 0 hlen]
  rfl

theorem readBody_eq (s : AwincNonFile) (k : Fin NUMASSUMSETS)
    (hb : (s.awincprojtr k).baseYear ≤ 2022) (hl : 2037 ≤ (s.awincprojtr k).lastYear) :
    readBody s ((k.val : Int) + 1) = .ok { s with
      titletr := Function.update s.titletr k (titleAt k)
      awincprojtr := Function.update s.awincprojtr k (restored k (s.awincprojtr k)) } := by
  have hk : (k.val : Int) + 1 - 1 = (k.val : Int) := by ring
  have hlen : k.val < titletrOriginal.length := k.isLt
  have ht : cArrayGet titletrOriginal ((k.val : Int) + 1 - 1) = .ok (titleAt k) := by
    rw [hk]; exact cArrayGet_natCast titletrOriginal k.val "" hlen
  have hn1 : (BaseYearNonFile.YEAR + NUMPROJYEARS - 2 + 1 - (BaseYearNonFile.YEAR - 1)).toNat = 16 := by
    decide
  have hy1 : BaseYearNonFile.YEAR - 1 = 2022 := by decide
  have hy2 : BaseYearNonFile.YEAR + NUMPROJYEARS - 2 + 1 = 2038 := by decide
  have loop1 := DoubleAnnual.forLoop_set (projAt k)
    (fun year t => do
      let row ← cArrayGet awincprojtrOriginal ((k.val : Int) + 1 - 1)
      let v ← cArrayGet row (year - BaseYearNonFile.YEAR + 1)
      t.set year v) 16 2022 (s.awincprojtr k)
    (fun y t h1 h2 => read_short_body k y t h1 h2) hb (by simp; omega)
  have loop2 := DoubleAnnual.forLoop_set (fun _ => ultAt k)
    (fun year t => do
      let v ← cArrayGet awincult ((k.val : Int) + 1 - 1)
      t.set year v) ((s.awincprojtr k).lastYear + 1 - 2038).toNat 2038
    ((s.awincprojtr k).fill 2022 16 (projAt k))
    (fun y t _ _ => read_long_body k y t) (by simp [DoubleAnnual.fill]; omega)
    (by simp [DoubleAnnual.fill]; omega)
  unfold readBody
  simp only [slot_natCast, ht, hn1, hy1, hy2, Function.update_same, DoubleAnnual.getLastYear]
  show (forLoop 16 2022 _ (s.awincprojtr k) >>= _) = _
  rw [loop1]
  show (forLoop _ 2038 _ ((s.awincprojtr k).fill 2022 16 (projAt k)) >>= _) = _
  rw [show ((s.awincprojtr k).fill 2022 16 (projAt k)).lastYear = (s.awincprojtr k).lastYear from rfl]
  rw [loop2]
  simp [restored, Function.update_idem]

theorem read_eq (s : AwincNonFile) (k : Fin NUMASSUMSETS)
    (hb : (s.awincprojtr k).baseYear ≤ 2022) (hl : 2037 ≤ (s.awincprojtr k).lastYear) :
    read s ((k.val : Int) + 1) = .ok { s with
      titletr := Function.update s.titletr k (titleAt k)
      awincprojtr := Function.update s.awincprojtr k (restored k (s.awincprojtr k)) } := by
  unfold read
  rw [readBody_eq s k hb hl]

theorem alt_cases (a : Int) (h1 : 1 ≤ a) (h4 : a ≤ 4) :
    ∃ k : Fin NUMASSUMSETS, a = (k.val : Int) + 1 := by
  refine ⟨⟨(a - 1).toNat, ?_⟩, ?_⟩
  · show (a - 1).toNat < 4
    omega
  · show a = (((a - 1).toNat : Nat) : Int) + 1
    omega

theorem restored_baseYear (k : Fin NUMASSUMSETS) (d : DoubleAnnual) :
    (restored k d).baseYear = d.baseYear := rfl

theorem restored_lastYear (k : Fin NUMASSUMSETS) (d : DoubleAnnual) :
    (restored k d).lastYear = d.lastYear := rfl

theorem restored_theData (k : Fin NUMASSUMSETS) (d : DoubleAnnual) (z : Int) :
    (restored k d).theData z =
      if 2038 ≤ z ∧ z ≤ d.lastYear then ultAt k
      else if 2022 ≤ z ∧ z ≤ 2037 then projAt k z
      else d.theData z := by
  simp only [restored, DoubleAnnual.fill]
  split_ifs <;> first | rfl | (exfalso; omega)

theorem proj_lookup (k : Fin NUMASSUMSETS) (y : Int) (h1 : 2022 ≤ y) (h2 : y ≤ 2037) :
    (cArrayGet awincprojtrOriginal ((k.val : Int) + 1 - 1) >>= fun row =>
      cArrayGet row (y - (BaseYearNonFile.YEAR - 1))) = .ok (projAt k y) := by
  have hk : (k.val : Int) + 1 - 1 = (k.val : Int) := by ring
  have hlen : k.val < awincprojtrOriginal.length := k.isLt
  rw [hk, cArrayGet_natCast awincprojtrOriginal k.val [] hlen]
  have hy : y - (BaseYearNonFile.YEAR - 1) = y - BaseYearNonFile.YEAR + 1 := by ring
  have hb : (0 : Int) ≤ y - BaseYearNonFile.YEAR + 1 := by
    simp only [BaseYearNonFile.YEAR]; omega
  have hu : y - BaseYearNonFile.YEAR + 1 < ((awincprojtrOriginal.getD k.val []).length : Int) := by
    rw [proj_row_length]; simp only [BaseYearNonFile.YEAR]; omega
  show cArrayGet (awincprojtrOriginal.getD k.val []) (y - (BaseYearNonFile.YEAR - 1)) = _
  rw [hy, cArrayGet_of_bounds _ _ 0 hb hu]
  rfl

theorem ult_lookup (k : Fin NUMASSUMSETS) :
    cArrayGet awincult ((k.val : Int) + 1 - 1) = .ok (ultAt k) := by
  have hk : (k.val : Int) + 1 - 1 = (k.val : Int) := by ring
  have hlen : k.val < awincult.length := k.isLt
  rw [hk, cArrayGet_natCast awincult k.val 0 hlen]
  rfl

theorem hist_lookup (y : Int) (h1 : 1978 ≤ y) (h2 : y ≤ 2021) :
    cArrayGet awincHist (y - (YEAR79 - 1)) = .ok (histAt y) := by
  have hb : (0 : Int) ≤ y - (YEAR79 - 1) := by simp only [YEAR79]; omega
  have hlen : awincHist.length = 44 := rfl
  have hu : y - (YEAR79 - 1) < (awincHist.length : Int) := by
    rw [hlen]; simp only [YEAR79]; omega
  rw [cArrayGet_of_bounds _ _ 0 hb hu]
  rfl

theorem get_of_mem (d : DoubleAnnual) (y : Int) (h1 : d.baseYear ≤ y) (h2 : y ≤ d.lastYear) :
    d.get y = .ok (d.theData y) := by
  simp [DoubleAnnual.get, h1, h2]

theorem get_of_not_mem (d : DoubleAnnual) (y : Int) (h : y < d.baseYear ∨ d.lastYear < y) :
    d.get y = .error (Err.pia DoubleAnnual.rangeErrorText) := by
  have : ¬ (d.baseYear ≤ y ∧ y ≤ d.lastYear) := by omega
  simp [DoubleAnnual.get, this]

theorem restored_get_short (k : Fin NUMASSUMSETS) (d : DoubleAnnual) (y : Int)
    (hb : d.baseYear ≤ 2022) (hl : 2037 ≤ d.lastYear) (h1 : 2022 ≤ y) (h2 : y ≤ 2037) :
    (restored k d).get y = .ok (projAt k y) := by
  rw [get_of_mem _ _ (by rw [restored_baseYear]; omega) (by rw [restored_lastYear]; omega),
    restored_theData]
  have c1 : ¬ (2038 ≤ y ∧ y ≤ d.lastYear) := by omega
  have c2 : 2022 ≤ y ∧ y ≤ 2037 := ⟨h1, h2⟩
  rw [if_neg c1, if_pos c2]

theorem restored_get_long (k : Fin NUMASSUMSETS) (d : DoubleAnnual) (y : Int)
    (hb : d.baseYear ≤ 2022) (h1 : 2038 ≤ y) (h2 : y ≤ d.lastYear) :
    (restored k d).get y = .ok (ultAt k) := by
  rw [get_of_mem _ _ (by rw [restored_baseYear]; omega) (by rw [restored_lastYear]; omega),
    restored_theData]
  have c1 : 2038 ≤ y ∧ y ≤ d.lastYear := ⟨h1, h2⟩
  rw [if_pos c1]

theorem restored_theData_before (k : Fin NUMASSUMSETS) (d : DoubleAnnual) (y : Int)
    (h : y < 2022) : (restored k d).theData y = d.theData y := by
  rw [restored_theData]
  have c1 : ¬ (2038 ≤ y ∧ y ≤ d.lastYear) := by omega
  have c2 : ¬ (2022 ≤ y ∧ y ≤ 2037) := by omega
  rw [if_neg c1, if_neg c2]

theorem restored_get_before (k : Fin NUMASSUMSETS) (d : DoubleAnnual) (y : Int)
    (h : y < 2022) : (restored k d).get y = d.get y := by
  simp only [DoubleAnnual.get, restored_baseYear, restored_lastYear,
    restored_theData_before k d y h]

theorem seriesRange_bounds (s : AwincNonFile) (hs : SeriesRange s) (k : Fin NUMASSUMSETS) :
    (s.awincprojtr k).baseYear ≤ 1978 ∧ 2037 ≤ (s.awincprojtr k).lastYear := by
  have hr := hs k
  simp only [DoubleAnnual.getBaseYear, DoubleAnnual.getLastYear, YEAR79, BaseYearNonFile.YEAR,
    NUMPROJYEARS] at hr
  constructor <;> omega

/-- C1: for every alternative `a` in 1..4 and every store state, `read(a)`
returns, and immediately afterwards the stored series of `a` holds
`awincprojtrOriginal[a-1][y-(YEAR-1)]` in every year `y` of
`YEAR-1 .. YEAR+NUMPROJYEARS-2` and `awincult[a-1]` in every later year up to the
last year of the series. -/
theorem read_sets_short_range_then_ultimate (s : AwincNonFile) (a : Int)
    (hs : SeriesRange s) (h1 : 1 ≤ a) (h4 : a ≤ 4) :
    ∃ s1 k, read s a = .ok s1 ∧ slot (a - 1) = .ok k ∧
      (∀ y : Int, BaseYearNonFile.YEAR - 1 ≤ y → y ≤ BaseYearNonFile.YEAR + NUMPROJYEARS - 2 →
        ∃ v, (s1.awincprojtr k).get y = .ok v ∧
          (cArrayGet awincprojtrOriginal (a - 1) >>= fun row =>
            cArrayGet row (y - (BaseYearNonFile.YEAR - 1))) = .ok v) ∧
      (∀ y : Int, BaseYearNonFile.YEAR + NUMPROJYEARS - 2 < y →
        y ≤ (s1.awincprojtr k).getLastYear →
        ∃ v, (s1.awincprojtr k).get y = .ok v ∧ cArrayGet awincult (a - 1) = .ok v) := by
  obtain ⟨k, rfl⟩ := alt_cases a h1 h4
  obtain ⟨hb, hl⟩ := seriesRange_bounds s hs k
  refine ⟨_, k, read_eq s k (by omega) hl, slot_natCast k, ?_, ?_⟩
  · intro y hy1 hy2
    simp only [BaseYearNonFile.YEAR, NUMPROJYEARS] at hy1 hy2
    refine ⟨projAt k y, ?_, proj_lookup k y (by omega) (by omega)⟩
    simp only [Function.update_same]
    exact restored_get_short k _ y (by omega) hl (by omega) (by omega)
  · intro y hy1 hy2
    simp only [BaseYearNonFile.YEAR, NUMPROJYEARS, DoubleAnnual.getLastYear,
      Function.update_same, restored_lastYear] at hy1 hy2
    refine ⟨ultAt k, ?_, ult_lookup k⟩
    simp only [Function.update_same]
    exact restored_get_long k _ y (by omega) (by omega) hy2

/-- C1, witness: `read(3)` on a store whose series all hold 7 in every year of
1951 .. 2100. -/
theorem read_sets_short_range_then_ultimate_witness :
    ∃ s1 k, read sampleStore 3 = .ok s1 ∧ slot (3 - 1) = .ok k ∧
      (∀ y : Int, BaseYearNonFile.YEAR - 1 ≤ y → y ≤ BaseYearNonFile.YEAR + NUMPROJYEARS - 2 →
        ∃ v, (s1.awincprojtr k).get y = .ok v ∧
          (cArrayGet awincprojtrOriginal (3 - 1) >>= fun row =>
            cArrayGet row (y - (BaseYearNonFile.YEAR - 1))) = .ok v) ∧
      (∀ y : Int, BaseYearNonFile.YEAR + NUMPROJYEARS - 2 < y →
        y ≤ (s1.awincprojtr k).getLastYear →
        ∃ v, (s1.awincprojtr k).get y = .ok v ∧ cArrayGet awincult (3 - 1) = .ok v) :=
  read_sets_short_range_then_ultimate sampleStore 3
    (fun _ => ⟨(by decide : (1951 : Int) ≤ 1978), (by decide : (2037 : Int) ≤ 2100)⟩)
    (by decide) (by decide)

theorem slot_val (k : Fin NUMASSUMSETS) : slot (k.val : Int) = .ok k := by
  have h := slot_natCast k
  rwa [show (k.val : Int) + 1 - 1 = (k.val : Int) by ring] at h

theorem hist_body (y : Int) (t : DoubleAnnual) (h1 : 1978 ≤ y) (h2 : y < 1978 + ((44 : Nat) : Int)) :
    (do
      let v ← cArrayGet awincHist (y - (YEAR79 - 1))
      t.set y v) = t.set y (histAt y) := by
  rw [hist_lookup y h1 (by omega)]
  rfl

theorem constructAlt_eq (fresh : Int → ℚ) (yr1 yr2 : Int) (k : Fin NUMASSUMSETS) (i : Int)
    (hi : i = (k.val : Int)) (s : AwincNonFile) (h1 : yr1 ≤ 1978) (h2 : 2037 ≤ yr2) :
    constructAlt fresh yr1 yr2 i s = .ok { s with
      titletr := Function.update s.titletr k (titleAt k)
      awincprojtr := Function.update s.awincprojtr k
        (restored k ((DoubleAnnual.create fresh yr1 yr2).fill 1978 44 histAt)) } := by
  subst hi
  have hn : (BaseYearNonFile.YEAR - 1 - (YEAR79 - 1)).toNat = 44 := by decide
  have hy : YEAR79 - 1 = 1978 := by decide
  have loop := DoubleAnnual.forLoop_set histAt
    (fun year t => do
      let v ← cArrayGet awincHist (year - (YEAR79 - 1))
      t.set year v) 44 1978 (DoubleAnnual.create fresh yr1 yr2)
    (fun y t a b => hist_body y t a b) h1 (by simp [DoubleAnnual.create]; omega)
  unfold constructAlt
  simp only [slot_val, hn]
  show (forLoop 44 (YEAR79 - 1) _ (DoubleAnnual.create fresh yr1 yr2) >>= _) = _
  rw [hy] at loop ⊢
  rw [loop]
  show read _ ((k.val : Int) + 1) = _
  rw [read_eq _ k (by simp [DoubleAnnual.fill, DoubleAnnual.create]; omega)
    (by simp [DoubleAnnual.fill, DoubleAnnual.create]; omega)]
  simp [Function.update_idem]

theorem construct_eq (doc : AwincDoc) (fresh : Int → ℚ) (newIstart newMaxyear : Int) :
    construct doc fresh newIstart newMaxyear =
      .ok (built doc fresh (min 1978 newIstart) (max 2037 newMaxyear)) := by
  have h1 : min (1978 : Int) newIstart ≤ 1978 := min_le_left _ _
  have h2 : (2037 : Int) ≤ max 2037 newMaxyear := le_max_left _ _
  have e0 := fun s => constructAlt_eq fresh _ _ (⟨0, by decide⟩ : Fin NUMASSUMSETS) 0 (by decide) s h1 h2
  have e1 := fun s => constructAlt_eq fresh _ _ (⟨1, by decide⟩ : Fin NUMASSUMSETS) (0 + 1) (by decide) s h1 h2
  have e2 := fun s =>
    constructAlt_eq fresh _ _ (⟨2, by decide⟩ : Fin NUMASSUMSETS) (0 + 1 + 1) (by decide) s h1 h2
  have e3 := fun s =>
    constructAlt_eq fresh _ _ (⟨3, by decide⟩ : Fin NUMASSUMSETS) (0 + 1 + 1 + 1) (by decide) s h1 h2
  unfold construct
  show forLoop 4 0 (constructAlt fresh (min 1978 newIstart) (max 2037 newMaxyear)) (blank doc) = _
  simp only [forLoop, e0, e1, e2, e3]
  congr 1
  simp only [built, blank]
  congr 1
  · funext k
    fin_cases k <;> rfl
  · funext k
    fin_cases k <;> rfl

theorem built_theData (doc : AwincDoc) (fresh : Int → ℚ) (yr1 yr2 : Int)
    (k : Fin NUMASSUMSETS) (z : Int) :
    ((built doc fresh yr1 yr2).awincprojtr k).theData z =
      if 2038 ≤ z ∧ z ≤ yr2 then ultAt k
      else if 2022 ≤ z ∧ z ≤ 2037 then projAt k z
      else if 1978 ≤ z ∧ z ≤ 2021 then histAt z
      else fresh z := by
  simp only [built, restored_theData, DoubleAnnual.fill, DoubleAnnual.create]
  split_ifs <;> first | rfl | (exfalso; omega)

theorem built_baseYear (doc : AwincDoc) (fresh : Int → ℚ) (yr1 yr2 : Int)
    (k : Fin NUMASSUMSETS) : ((built doc fresh yr1 yr2).awincprojtr k).baseYear = yr1 := rfl

theorem built_lastYear (doc : AwincDoc) (fresh : Int → ℚ) (yr1 yr2 : Int)
    (k : Fin NUMASSUMSETS) : ((built doc fresh yr1 yr2).awincprojtr k).lastYear = yr2 := rfl

/-- C2, as amended: for all constructor arguments, every alternative `a` in 1..4
and every year `y` from 1978 up to `BaseYearNonFile::YEAR - 2`, the constructor
returns and the stored series it builds holds `awincHist[y-1978]` at `y`. -/
theorem construct_keeps_history (doc : AwincDoc) (fresh : Int → ℚ)
    (newIstart newMaxyear a y : Int) (h1 : 1 ≤ a) (h4 : a ≤ 4)
    (hy1 : YEAR79 - 1 ≤ y) (hy2 : y < BaseYearNonFile.YEAR - 1) :
    ∃ s k v, construct doc fresh newIstart newMaxyear = .ok s ∧ slot (a - 1) = .ok k ∧
      (s.awincprojtr k).get y = .ok v ∧ cArrayGet awincHist (y - (YEAR79 - 1)) = .ok v := by
  obtain ⟨k, rfl⟩ := alt_cases a h1 h4
  simp only [YEAR79, BaseYearNonFile.YEAR] at hy1 hy2
  have hmin : min (1978 : Int) newIstart ≤ 1978 := min_le_left _ _
  have hmax : (2037 : Int) ≤ max 2037 newMaxyear := le_max_left _ _
  refine ⟨_, k, histAt y, construct_eq doc fresh newIstart newMaxyear, slot_natCast k, ?_,
    hist_lookup y (by omega) (by omega)⟩
  rw [get_of_mem _ _ (by rw [built_baseYear]; omega) (by rw [built_lastYear]; omega),
    built_theData]
  have c1 : ¬ (2038 ≤ y ∧ y ≤ max 2037 newMaxyear) := by omega
  have c2 : ¬ (2022 ≤ y ∧ y ≤ 2037) := by omega
  have c3 : 1978 ≤ y ∧ y ≤ 2021 := by omega
  rw [if_neg c1, if_neg c2, if_pos c3]

/-- C2, witness: alternative 2 and the year 2000 after `AwincNonFile(1951, 2100)`. -/
theorem construct_keeps_history_witness :
    ∃ s k v, construct sampleDoc sampleFresh 1951 2100 = .ok s ∧ slot (2 - 1) = .ok k ∧
      (s.awincprojtr k).get 2000 = .ok v ∧ cArrayGet awincHist (2000 - (YEAR79 - 1)) = .ok v :=
  construct_keeps_history sampleDoc sampleFresh 1951 2100 2 2000 (by decide) (by decide)
    (by decide) (by decide)

/-- C2, counterexample: 2022 is a year from 1978 on and strictly before the base
year, yet after `AwincNonFile(1951, 2100)` the stored series of alternative 1
holds there the first short-range value 4.716759, and the historical record has
no value for 2022 (`awincHist[44]` is past its end). -/
theorem construct_base_year_minus_one_not_history :
    YEAR79 - 1 ≤ (2022 : Int) ∧ (2022 : Int) < BaseYearNonFile.YEAR ∧
    ∃ s k, construct sampleDoc sampleFresh 1951 2100 = .ok s ∧ slot (1 - 1) = .ok k ∧
      (s.awincprojtr k).get 2022 = .ok 4.716759 ∧
      cArrayGet awincHist (2022 - (YEAR79 - 1)) = .error Err.outOfBounds := by
  refine ⟨by decide, by decide, _, ⟨0, by decide⟩, construct_eq _ _ _ _, rfl, ?_, ?_⟩
  · rw [get_of_mem _ _ (by rw [built_baseYear]; decide) (by rw [built_lastYear]; decide),
      built_theData]
    rfl
  · exact cArrayGet_of_length_le _ _ (by decide)

theorem slot_inv (i : Int) (k : Fin NUMASSUMSETS) (h : slot i = .ok k) : i = (k.val : Int) := by
  unfold slot at h
  split at h
  · rename_i hi
    injection h with h
    subst h
    show i = ((i.toNat : Nat) : Int)
    omega
  · cases h

theorem assign_inv (d src d1 : DoubleAnnual) (a b : Int) (h : d.assign src a b = .ok d1) :
    ¬ (b < d.baseYear ∨ d.lastYear < a) ∧
    d1 = { d with theData := fun z =>
      if a ≤ z ∧ z ≤ b ∧ d.baseYear ≤ z ∧ z ≤ d.lastYear ∧ src.baseYear ≤ z ∧ z ≤ src.lastYear
      then src.theData z else d.theData z } := by
  unfold DoubleAnnual.assign at h
  split at h
  · cases h
  · rename_i hc
    injection h with h
    exact ⟨hc, h.symm⟩

theorem assignConst_inv (d d1 : DoubleAnnual) (c : ℚ) (a b : Int)
    (h : d.assignConst c a b = .ok d1) :
    ¬ (b < d.baseYear ∨ d.lastYear < a) ∧
    d1 = { d with theData := fun z =>
      if a ≤ z ∧ z ≤ b ∧ d.baseYear ≤ z ∧ z ≤ d.lastYear then c else d.theData z } := by
  unfold DoubleAnnual.assignConst at h
  split at h
  · cases h
  · rename_i hc
    injection h with h
    exact ⟨hc, h.symm⟩

theorem setData_inv (s s1 : AwincNonFile) (a : Int) (h : setData s a = .ok s1) :
    ∃ d, s1 = { s with awinc := d } ∧
      ((AssumptionType.isTR a = true ∧ ∃ k, slot (a - 1) = .ok k ∧
          s.awinc.assign (s.awincprojtr k) (max s.firstYear s.awinc.baseYear) s.awinc.lastYear
            = .ok d) ∨
       (AssumptionType.isTR a = false ∧
          s.awinc.assignConst 0.0 (max s.firstYear s.awinc.baseYear) s.awinc.lastYear = .ok d)) := by
  unfold setData at h
  by_cases htr : AssumptionType.isTR a = true
  · simp only [htr, if_true] at h
    cases hk : slot (a - 1) with
    | error e => rw [hk] at h; cases h
    | ok k =>
      rw [hk] at h
      cases hd : s.awinc.assign (s.awincprojtr k) (max s.getFirstYear s.awinc.getBaseYear)
          s.awinc.getLastYear with
      | error e => simp only [bind, Except.bind, hd] at h; cases h
      | ok d =>
        simp only [bind, Except.bind, hd, pure, Except.pure] at h
        injection h with h
        exact ⟨d, h.symm, Or.inl ⟨htr, k, rfl, hd⟩⟩
  · have hf : AssumptionType.isTR a = false := by simpa using htr
    simp only [hf] at h
    cases hd : s.awinc.assignConst 0.0 (max s.getFirstYear s.awinc.getBaseYear)
        s.awinc.getLastYear with
    | error e => simp only [bind, Except.bind, hd] at h; cases h
    | ok d =>
      simp only [bind, Except.bind, hd, pure, Except.pure] at h
      simp at h
      exact ⟨d, h.symm, Or.inr ⟨hf, hd⟩⟩

theorem slot_error (i : Int) (h : ¬ (0 ≤ i ∧ i < 4)) : slot i = .error Err.outOfBounds := by
  unfold slot
  rw [dif_neg]
  simpa [NUMASSUMSETS] using h

theorem read_inv (s s1 : AwincNonFile) (a : Int) (hs : SeriesRange s) (h : read s a = .ok s1) :
    ∃ k : Fin NUMASSUMSETS, a = (k.val : Int) + 1 ∧ s1 = { s with
      titletr := Function.update s.titletr k (titleAt k)
      awincprojtr := Function.update s.awincprojtr k (restored k (s.awincprojtr k)) } := by
  by_cases ha : 1 ≤ a ∧ a ≤ 4
  · obtain ⟨k, rfl⟩ := alt_cases a ha.1 ha.2
    have hr := hs k
    simp only [DoubleAnnual.getBaseYear, DoubleAnnual.getLastYear, YEAR79, BaseYearNonFile.YEAR,
      NUMPROJYEARS] at hr
    rw [read_eq s k (by omega) (by omega)] at h
    injection h with h
    exact ⟨k, rfl, h.symm⟩
  · exfalso
    have hk : slot (a - 1) = .error Err.outOfBounds := slot_error _ (by omega)
    have hb : readBody s a = .error Err.outOfBounds := by
      unfold readBody
      rw [hk]
      rfl
    unfold read at h
    rw [hb] at h
    cases h

theorem setDataWith_inv (s s1 : AwincNonFile) (a : Int) (newData : DoubleAnnual)
    (h : setDataWith s a newData = .ok s1) :
    (AssumptionType.isTR a = false ∧ setData s a = .ok s1) ∨
    (AssumptionType.isTR a = true ∧ ∃ k d, slot (a - 1) = .ok k ∧
      (s.awincprojtr k).assign newData s.firstYear (s.awincprojtr k).lastYear = .ok d ∧
      setData { s with awincprojtr := Function.update s.awincprojtr k d } a = .ok s1) := by
  unfold setDataWith at h
  by_cases htr : AssumptionType.isTR a = true
  · right
    simp only [htr, if_true] at h
    cases hk : slot (a - 1) with
    | error e => rw [hk] at h; cases h
    | ok k =>
      rw [hk] at h
      cases hd : (s.awincprojtr k).assign newData s.getFirstYear (s.awincprojtr k).getLastYear with
      | error e => simp only [bind, Except.bind, hd] at h; cases h
      | ok d =>
        simp only [bind, Except.bind, hd] at h
        exact ⟨htr, k, d, rfl, hd, h⟩
  · left
    have hf : AssumptionType.isTR a = false := by simpa using htr
    simp only [hf] at h
    exact ⟨hf, by simpa using h⟩

theorem setTitle_inv (avgwage : List String) (s s1 : AwincNonFile) (a : Int)
    (h : setTitle avgwage s a = .ok s1) : ∃ t, s1 = { s with awincTitle := t } := by
  unfold setTitle at h
  by_cases hn : AssumptionType.isNotTR a = true
  · simp only [hn, if_true] at h
    cases ht : cArrayGet avgwage (a - AssumptionType.FLAT) with
    | error e => simp only [bind, Except.bind, ht] at h; cases h
    | ok t =>
      simp only [bind, Except.bind, ht, pure, Except.pure] at h
      injection h with h
      exact ⟨t, h.symm⟩
  · have hf : AssumptionType.isNotTR a = false := by simpa using hn
    simp only [hf] at h
    cases hk : slot (a - 1) with
    | error e => simp only [bind, Except.bind, hk] at h; simp at h
    | ok k =>
      simp only [bind, Except.bind, hk, pure, Except.pure] at h
      simp at h
      exact ⟨s.titletr k, h.symm⟩

theorem setTitleWith_inv (avgwage : List String) (s s1 : AwincNonFile) (a : Int)
    (newTitle : String) (h : setTitleWith avgwage s a newTitle = .ok s1) :
    ∃ t f, s1 = { s with awincTitle := t, titletr := f } := by
  unfold setTitleWith at h
  by_cases hn : AssumptionType.isNotTR a = true
  · simp only [hn, if_true] at h
    cases ht : cArrayGet avgwage (a - AssumptionType.FLAT) with
    | error e => simp only [bind, Except.bind, ht] at h; cases h
    | ok t =>
      simp only [bind, Except.bind, ht, pure, Except.pure] at h
      injection h with h
      exact ⟨t, s.titletr, h.symm⟩
  · have hf : AssumptionType.isNotTR a = false := by simpa using hn
    simp only [hf] at h
    cases hk : slot (a - 1) with
    | error e => simp only [bind, Except.bind, hk] at h; simp at h
    | ok k =>
      simp only [bind, Except.bind, hk, pure, Except.pure] at h
      simp at h
      exact ⟨_, _, h.symm⟩

/-- What a successful call leaves unchanged: the engine's first year, the range
of every stored series, and every stored value of a year that is both before
2022 and before the engine's first year. -/
theorem run_frame (avgwage : List String) (s s1 : AwincNonFile) (c : Call)
    (hs : SeriesRange s) (h : c.run avgwage s = .ok s1) :
    s1.firstYear = s.firstYear ∧
    ∀ k, (s1.awincprojtr k).baseYear = (s.awincprojtr k).baseYear ∧
      (s1.awincprojtr k).lastYear = (s.awincprojtr k).lastYear ∧
      ∀ y, y < 2022 → y < s.firstYear →
        (s1.awincprojtr k).theData y = (s.awincprojtr k).theData y := by
  cases c with
  | read a =>
    obtain ⟨k, _, rfl⟩ := read_inv s s1 a hs h
    refine ⟨rfl, fun j => ?_⟩
    by_cases hj : j = k
    · subst hj
      simp only [Function.update_same]
      refine ⟨rfl, rfl, fun y hy _ => ?_⟩
      rw [restored_theData]
      have c1 : ¬ (2038 ≤ y ∧ y ≤ (s.awincprojtr j).lastYear) := by omega
      have c2 : ¬ (2022 ≤ y ∧ y ≤ 2037) := by omega
      rw [if_neg c1, if_neg c2]
    · refine ⟨?_, ?_, fun y _ _ => ?_⟩ <;> simp [Function.update_noteq hj]
  | write a =>
    injection h with h
    subst h
    exact ⟨rfl, fun _ => ⟨rfl, rfl, fun _ _ _ => rfl⟩⟩
  | setData a =>
    obtain ⟨d, rfl, _⟩ := setData_inv s s1 a h
    exact ⟨rfl, fun _ => ⟨rfl, rfl, fun _ _ _ => rfl⟩⟩
  | setDataWith a newData =>
    rcases setDataWith_inv s s1 a newData h with ⟨_, h2⟩ | ⟨_, k, d, _, hd, h2⟩
    · obtain ⟨d, rfl, _⟩ := setData_inv s s1 a h2
      exact ⟨rfl, fun _ => ⟨rfl, rfl, fun _ _ _ => rfl⟩⟩
    · obtain ⟨d2, rfl, _⟩ := setData_inv _ s1 a h2
      obtain ⟨_, rfl⟩ := assign_inv _ _ _ _ _ hd
      refine ⟨rfl, fun j => ?_⟩
      by_cases hj : j = k
      · subst hj
        refine ⟨by simp, by simp, fun y _ hy => ?_⟩
        have c1 : ¬ (s.firstYear ≤ y ∧ y ≤ (s.awincprojtr j).lastYear ∧
            (s.awincprojtr j).baseYear ≤ y ∧ y ≤ (s.awincprojtr j).lastYear ∧
            newData.baseYear ≤ y ∧ y ≤ newData.lastYear) := by omega
        simp only [Function.update_same, if_neg c1]
      · refine ⟨?_, ?_, fun y _ _ => ?_⟩ <;> simp [Function.update_noteq hj]
  | setTitle a =>
    obtain ⟨t, rfl⟩ := setTitle_inv avgwage s s1 a h
    exact ⟨rfl, fun _ => ⟨rfl, rfl, fun _ _ _ => rfl⟩⟩
  | setTitleWith a newTitle =>
    obtain ⟨t, f, rfl⟩ := setTitleWith_inv avgwage s s1 a newTitle h
    exact ⟨rfl, fun _ => ⟨rfl, rfl, fun _ _ _ => rfl⟩⟩

theorem seriesRange_of_ranges (s s1 : AwincNonFile) (hs : SeriesRange s)
    (h : ∀ k, (s1.awincprojtr k).baseYear = (s.awincprojtr k).baseYear ∧
      (s1.awincprojtr k).lastYear = (s.awincprojtr k).lastYear) : SeriesRange s1 := by
  intro k
  have h1 := hs k
  have h2 := h k
  simp only [DoubleAnnual.getBaseYear, DoubleAnnual.getLastYear] at h1 ⊢
  rw [h2.1, h2.2]
  exact h1

/-- Along a sequence of successful calls the engine's first year and the range
of every stored series stay as they are, and so does every stored value of a year
that is both before 2022 and before the engine's first year. -/
theorem runCalls_frame (avgwage : List String) (cs : List Call) :
    ∀ s s1 : AwincNonFile, SeriesRange s → runCalls avgwage s cs = .ok s1 →
      SeriesRange s1 ∧ s1.firstYear = s.firstYear ∧
      ∀ k, (s1.awincprojtr k).baseYear = (s.awincprojtr k).baseYear ∧
        (s1.awincprojtr k).lastYear = (s.awincprojtr k).lastYear ∧
        ∀ y, y < 2022 → y < s.firstYear →
          (s1.awincprojtr k).theData y = (s.awincprojtr k).theData y := by
  induction cs with
  | nil =>
    intro s s1 hs h
    injection h with h
    subst h
    exact ⟨hs, rfl, fun _ => ⟨rfl, rfl, fun _ _ _ => rfl⟩⟩
  | cons c cs ih =>
    intro s s1 hs h
    unfold runCalls at h
    cases hc : c.run avgwage s with
    | error e => rw [hc] at h; cases h
    | ok s2 =>
      rw [hc] at h
      have f1 := run_frame avgwage s s2 c hs hc
      have hs2 : SeriesRange s2 :=
        seriesRange_of_ranges s s2 hs (fun k => ⟨(f1.2 k).1, (f1.2 k).2.1⟩)
      have f2 := ih s2 s1 hs2 h
      refine ⟨f2.1, f2.2.1.trans f1.1, fun k => ?_⟩
      refine ⟨(f2.2.2 k).1.trans (f1.2 k).1, (f2.2.2 k).2.1.trans (f1.2 k).2.1, fun y h1 h2 => ?_⟩
      rw [(f2.2.2 k).2.2 y h1 (by rw [f1.1]; exact h2), (f1.2 k).2.2 y h1 h2]

theorem built_seriesRange (doc : AwincDoc) (fresh : Int → ℚ) (newIstart newMaxyear : Int) :
    SeriesRange (built doc fresh (min 1978 newIstart) (max 2037 newMaxyear)) := by
  intro k
  have hmin : min (1978 : Int) newIstart ≤ 1978 := min_le_left _ _
  have hmax : (2037 : Int) ≤ max 2037 newMaxyear := le_max_left _ _
  simp only [DoubleAnnual.getBaseYear, DoubleAnnual.getLastYear, built_baseYear, built_lastYear,
    YEAR79, BaseYearNonFile.YEAR, NUMPROJYEARS]
  constructor <;> omega

/-- C3, as amended: in every state reached from construction by a sequence of
`read`, `write`, `setData` and `setTitle` calls, `read(a)` for `a` in 1..4
returns, and immediately afterwards the stored series of `a` holds the
short-range table in every year of `YEAR-1 .. YEAR+NUMPROJYEARS-2` and the
ultimate rate in every later year; the years before `YEAR-1` are left as they
were, and every year of 1978 .. `YEAR-2` that is before `getFirstYear()` holds
the historical record (all of them when `getFirstYear()` is not before
`YEAR-1`). -/
theorem read_after_calls_restores_projection (doc : AwincDoc) (fresh : Int → ℚ)
    (newIstart newMaxyear : Int) (avgwage : List String) (cs : List Call)
    (s0 s : AwincNonFile) (a : Int)
    (h0 : construct doc fresh newIstart newMaxyear = .ok s0)
    (hrun : runCalls avgwage s0 cs = .ok s) (h1 : 1 ≤ a) (h4 : a ≤ 4) :
    ∃ s1 k, read s a = .ok s1 ∧ slot (a - 1) = .ok k ∧
      (∀ y : Int, BaseYearNonFile.YEAR - 1 ≤ y → y ≤ BaseYearNonFile.YEAR + NUMPROJYEARS - 2 →
        ∃ v, (s1.awincprojtr k).get y = .ok v ∧
          (cArrayGet awincprojtrOriginal (a - 1) >>= fun row =>
            cArrayGet row (y - (BaseYearNonFile.YEAR - 1))) = .ok v) ∧
      (∀ y : Int, BaseYearNonFile.YEAR + NUMPROJYEARS - 2 < y →
        y ≤ (s1.awincprojtr k).getLastYear →
        ∃ v, (s1.awincprojtr k).get y = .ok v ∧ cArrayGet awincult (a - 1) = .ok v) ∧
      (∀ y : Int, y < BaseYearNonFile.YEAR - 1 →
        (s1.awincprojtr k).get y = (s.awincprojtr k).get y) ∧
      (∀ y : Int, YEAR79 - 1 ≤ y → y < BaseYearNonFile.YEAR - 1 → y < s.getFirstYear →
        ∃ v, (s1.awincprojtr k).get y = .ok v ∧
          cArrayGet awincHist (y - (YEAR79 - 1)) = .ok v) := by
  rw [construct_eq] at h0
  injection h0 with h0
  subst h0
  have hmin : min (1978 : Int) newIstart ≤ 1978 := min_le_left _ _
  have hmax : (2037 : Int) ≤ max 2037 newMaxyear := le_max_left _ _
  obtain ⟨hs, hfy, hfr⟩ := runCalls_frame avgwage cs _ s (built_seriesRange doc fresh _ _) hrun
  obtain ⟨k, rfl⟩ := alt_cases a h1 h4
  obtain ⟨hb, hl⟩ := seriesRange_bounds s hs k
  refine ⟨_, k, read_eq s k (by omega) hl, slot_natCast k, ?_, ?_, ?_, ?_⟩
  · intro y hy1 hy2
    simp only [BaseYearNonFile.YEAR, NUMPROJYEARS] at hy1 hy2
    refine ⟨projAt k y, ?_, proj_lookup k y (by omega) (by omega)⟩
    simp only [Function.update_same]
    exact restored_get_short k _ y (by omega) hl (by omega) (by omega)
  · intro y hy1 hy2
    simp only [BaseYearNonFile.YEAR, NUMPROJYEARS, DoubleAnnual.getLastYear,
      Function.update_same, restored_lastYear] at hy1 hy2
    refine ⟨ultAt k, ?_, ult_lookup k⟩
    simp only [Function.update_same]
    exact restored_get_long k _ y (by omega) (by omega) hy2
  · intro y hy
    simp only [BaseYearNonFile.YEAR] at hy
    simp only [Function.update_same]
    exact restored_get_before k _ y (by omega)
  · intro y hy1 hy2 hy3
    simp only [BaseYearNonFile.YEAR, YEAR79] at hy1 hy2
    have hy4 : y < doc.firstYear := by
      have e : s.firstYear = doc.firstYear := hfy
      show y < doc.firstYear
      rw [← e]
      exact hy3
    refine ⟨histAt y, ?_, hist_lookup y (by omega) (by omega)⟩
    simp only [Function.update_same]
    rw [restored_get_before k _ y (by omega), get_of_mem _ _ (by omega) (by omega),
      (hfr k).2.2 y (by omega) hy4, built_theData]
    have c1 : ¬ (2038 ≤ y ∧ y ≤ max 2037 newMaxyear) := by omega
    have c2 : ¬ (2022 ≤ y ∧ y ≤ 2037) := by omega
    have c3 : 1978 ≤ y ∧ y ≤ 2021 := by omega
    rw [if_neg c1, if_neg c2, if_pos c3]

/-- C3, witness: the object built by `AwincNonFile(2000, 2100)` for an engine
that starts in 2000, after `setData(1, custom)` and `write(1)`; then `read(1)`.
The years 1978 .. 1999 hold the historical record. -/
theorem read_after_calls_restores_projection_witness :
    ∃ s0 s, construct sampleDocMid sampleFresh 2000 2100 = .ok s0 ∧
      runCalls [] s0 [Call.setDataWith 1 sampleCustom, Call.write 1] = .ok s ∧
      ∃ s1 k, read s 1 = .ok s1 ∧ slot (1 - 1) = .ok k ∧
      (∀ y : Int, BaseYearNonFile.YEAR - 1 ≤ y → y ≤ BaseYearNonFile.YEAR + NUMPROJYEARS - 2 →
        ∃ v, (s1.awincprojtr k).get y = .ok v ∧
          (cArrayGet awincprojtrOriginal (1 - 1) >>= fun row =>
            cArrayGet row (y - (BaseYearNonFile.YEAR - 1))) = .ok v) ∧
      (∀ y : Int, BaseYearNonFile.YEAR + NUMPROJYEARS - 2 < y →
        y ≤ (s1.awincprojtr k).getLastYear →
        ∃ v, (s1.awincprojtr k).get y = .ok v ∧ cArrayGet awincult (1 - 1) = .ok v) ∧
      (∀ y : Int, y < BaseYearNonFile.YEAR - 1 →
        (s1.awincprojtr k).get y = (s.awincprojtr k).get y) ∧
      (∀ y : Int, YEAR79 - 1 ≤ y → y < BaseYearNonFile.YEAR - 1 → y < s.getFirstYear →
        ∃ v, (s1.awincprojtr k).get y = .ok v ∧
          cArrayGet awincHist (y - (YEAR79 - 1)) = .ok v) :=
  ⟨_, _, construct_eq _ _ _ _, rfl,
    read_after_calls_restores_projection sampleDocMid sampleFresh 2000 2100 []
      [Call.setDataWith 1 sampleCustom, Call.write 1] _ _ 1
      (construct_eq _ _ _ _) rfl (by decide) (by decide)⟩

/-- C3, counterexample: the object built by `AwincNonFile(1951, 2100)` for an
engine that starts in 1951, after `setData(1, custom)` with a series `custom`
that is 1 everywhere.  `read(1)` returns, but the year 2000 of the stored series
of alternative 1 still holds the override 1 and not the historical value
`awincHist[22]` = 5.529993. -/
theorem read_does_not_restore_history :
    ∃ s0 s s1 k, construct sampleDoc sampleFresh 1951 2100 = .ok s0 ∧
      runCalls [] s0 [Call.setDataWith 1 sampleCustom] = .ok s ∧
      read s 1 = .ok s1 ∧ slot (1 - 1) = .ok k ∧
      (s1.awincprojtr k).get 2000 = .ok 1 ∧
      cArrayGet awincHist (2000 - (YEAR79 - 1)) = .ok 5.529993 ∧
      (1 : ℚ) ≠ 5.529993 := by
  refine ⟨_, _, _, ⟨0, by decide⟩, construct_eq _ _ _ _, rfl, read_eq _ ⟨0, by decide⟩ ?_ ?_,
    rfl, ?_, ?_, by norm_num⟩
  · decide
  · decide
  · rfl
  · rfl

theorem assign_eq (d src : DoubleAnnual) (a b : Int) (h : ¬ (b < d.baseYear ∨ d.lastYear < a)) :
    d.assign src a b = .ok (d.copied src a b) := by
  unfold DoubleAnnual.assign
  rw [if_neg h]
  rfl

theorem assignConst_eq (d : DoubleAnnual) (c : ℚ) (a b : Int)
    (h : ¬ (b < d.baseYear ∨ d.lastYear < a)) :
    d.assignConst c a b = .ok (d.filled c a b) := by
  unfold DoubleAnnual.assignConst
  rw [if_neg h]
  rfl

theorem isTR_slot (k : Fin NUMASSUMSETS) : AssumptionType.isTR ((k.val : Int) + 1) = true := by
  have : k.val < 4 := k.isLt
  simp only [AssumptionType.isTR, decide_eq_true_eq]
  constructor <;> omega

theorem isTR_inv (a : Int) (h : AssumptionType.isTR a = true) : 1 ≤ a ∧ a ≤ 4 := by
  simpa [AssumptionType.isTR] using h

theorem setData_tr_eq (s : AwincNonFile) (k : Fin NUMASSUMSETS)
    (h : max s.firstYear s.awinc.baseYear ≤ s.awinc.lastYear) :
    setData s ((k.val : Int) + 1) = .ok { s with
      awinc := s.awinc.copied (s.awincprojtr k) (max s.firstYear s.awinc.baseYear)
        s.awinc.lastYear } := by
  have hb : s.awinc.baseYear ≤ max s.firstYear s.awinc.baseYear := le_max_right _ _
  have hc : ¬ (s.awinc.lastYear < s.awinc.baseYear ∨
      s.awinc.lastYear < max s.firstYear s.awinc.baseYear) := by omega
  unfold setData
  simp only [isTR_slot, if_true, slot_natCast, getFirstYear, DoubleAnnual.getBaseYear,
    DoubleAnnual.getLastYear]
  show (s.awinc.assign (s.awincprojtr k) _ _ >>= _) = _
  rw [assign_eq _ _ _ _ hc]
  rfl

theorem setData_nontr_eq (s : AwincNonFile) (a : Int) (hn : AssumptionType.isTR a = false)
    (h : max s.firstYear s.awinc.baseYear ≤ s.awinc.lastYear) :
    setData s a = .ok { s with
      awinc := s.awinc.filled 0.0 (max s.firstYear s.awinc.baseYear) s.awinc.lastYear } := by
  have hb : s.awinc.baseYear ≤ max s.firstYear s.awinc.baseYear := le_max_right _ _
  have hc : ¬ (s.awinc.lastYear < s.awinc.baseYear ∨
      s.awinc.lastYear < max s.firstYear s.awinc.baseYear) := by omega
  unfold setData
  simp only [hn, getFirstYear, DoubleAnnual.getBaseYear, DoubleAnnual.getLastYear]
  show (s.awinc.assignConst 0.0 _ _ >>= _) = _
  rw [assignConst_eq _ _ _ _ hc]
  rfl

theorem setDataWith_tr_eq (s : AwincNonFile) (k : Fin NUMASSUMSETS) (newData : DoubleAnnual)
    (h1 : (s.awincprojtr k).baseYear ≤ (s.awincprojtr k).lastYear)
    (h2 : s.firstYear ≤ (s.awincprojtr k).lastYear)
    (h3 : max s.firstYear s.awinc.baseYear ≤ s.awinc.lastYear) :
    setDataWith s ((k.val : Int) + 1) newData = .ok { s with
      awincprojtr := Function.update s.awincprojtr k
        ((s.awincprojtr k).copied newData s.firstYear (s.awincprojtr k).lastYear)
      awinc := s.awinc.copied
        ((s.awincprojtr k).copied newData s.firstYear (s.awincprojtr k).lastYear)
        (max s.firstYear s.awinc.baseYear) s.awinc.lastYear } := by
  have hc : ¬ ((s.awincprojtr k).lastYear < (s.awincprojtr k).baseYear ∨
      (s.awincprojtr k).lastYear < s.firstYear) := by omega
  unfold setDataWith
  simp only [isTR_slot, if_true, slot_natCast, getFirstYear, DoubleAnnual.getLastYear]
  show ((s.awincprojtr k).assign newData _ _ >>= _) = _
  rw [assign_eq _ _ _ _ hc]
  have e := setData_tr_eq
    { s with
      awincprojtr := (Function.update s.awincprojtr k
        ((s.awincprojtr k).copied newData s.firstYear (s.awincprojtr k).lastYear)) } k h3
  show setData _ _ = _
  rw [e]
  simp

theorem copied_theData_of_mem (d src : DoubleAnnual) (a b y : Int) (h1 : a ≤ y) (h2 : y ≤ b)
    (h3 : d.baseYear ≤ y) (h4 : y ≤ d.lastYear) (h5 : src.baseYear ≤ y) (h6 : y ≤ src.lastYear) :
    (d.copied src a b).theData y = src.theData y := by
  have c : a ≤ y ∧ y ≤ b ∧ d.baseYear ≤ y ∧ y ≤ d.lastYear ∧ src.baseYear ≤ y ∧
      y ≤ src.lastYear := ⟨h1, h2, h3, h4, h5, h6⟩
  simp only [DoubleAnnual.copied, if_pos c]

theorem copied_theData_of_lt (d src : DoubleAnnual) (a b y : Int) (h : y < a) :
    (d.copied src a b).theData y = d.theData y := by
  have c : ¬ (a ≤ y ∧ y ≤ b ∧ d.baseYear ≤ y ∧ y ≤ d.lastYear ∧ src.baseYear ≤ y ∧
      y ≤ src.lastYear) := by omega
  simp only [DoubleAnnual.copied, if_neg c]

theorem copied_theData_of_not_src (d src : DoubleAnnual) (a b y : Int)
    (h : y < src.baseYear ∨ src.lastYear < y) :
    (d.copied src a b).theData y = d.theData y := by
  have c : ¬ (a ≤ y ∧ y ≤ b ∧ d.baseYear ≤ y ∧ y ≤ d.lastYear ∧ src.baseYear ≤ y ∧
      y ≤ src.lastYear) := by omega
  simp only [DoubleAnnual.copied, if_neg c]

theorem copied_get (d src : DoubleAnnual) (a b y : Int) :
    (d.copied src a b).get y =
      if d.baseYear ≤ y ∧ y ≤ d.lastYear then .ok ((d.copied src a b).theData y)
      else .error (Err.pia DoubleAnnual.rangeErrorText) := rfl

theorem copied_baseYear (d src : DoubleAnnual) (a b : Int) :
    (d.copied src a b).baseYear = d.baseYear := rfl

theorem copied_lastYear (d src : DoubleAnnual) (a b : Int) :
    (d.copied src a b).lastYear = d.lastYear := rfl

theorem copied_get_of_mem (d src : DoubleAnnual) (a b y : Int) (h1 : a ≤ y) (h2 : y ≤ b)
    (h3 : d.baseYear ≤ y) (h4 : y ≤ d.lastYear) (h5 : src.baseYear ≤ y) (h6 : y ≤ src.lastYear) :
    (d.copied src a b).get y = src.get y := by
  rw [copied_get, copied_theData_of_mem _ _ _ _ y h1 h2 h3 h4 h5 h6, if_pos ⟨h3, h4⟩,
    get_of_mem _ _ h5 h6]

theorem setData_frame (s s1 : AwincNonFile) (a : Int) (h : setData s a = .ok s1) :
    s1.awincprojtr = s.awincprojtr ∧ s1.titletr = s.titletr ∧
    s1.awincTitle = s.awincTitle ∧ s1.firstYear = s.firstYear ∧
    s1.awinc.baseYear = s.awinc.baseYear ∧ s1.awinc.lastYear = s.awinc.lastYear ∧
    ∀ y : Int, y < max s.firstYear s.awinc.baseYear →
      s1.awinc.theData y = s.awinc.theData y := by
  obtain ⟨d, rfl, hd⟩ := setData_inv s s1 a h
  refine ⟨rfl, rfl, rfl, rfl, ?_⟩
  rcases hd with ⟨_, k, _, hd⟩ | ⟨_, hd⟩
  · obtain ⟨_, rfl⟩ := assign_inv _ _ _ _ _ hd
    refine ⟨rfl, rfl, fun y hy => ?_⟩
    exact copied_theData_of_lt s.awinc (s.awincprojtr k) _ _ y hy
  · obtain ⟨_, rfl⟩ := assignConst_inv _ _ _ _ _ hd
    refine ⟨rfl, rfl, fun y hy => ?_⟩
    have c : ¬ (max s.firstYear s.awinc.baseYear ≤ y ∧ y ≤ s.awinc.lastYear ∧
        s.awinc.baseYear ≤ y ∧ y ≤ s.awinc.lastYear) := by omega
    show (if _ then _ else _) = _
    rw [if_neg c]

theorem get_congr (d e : DoubleAnnual) (y : Int) (hb : d.baseYear = e.baseYear)
    (hl : d.lastYear = e.lastYear) (hd : d.theData y = e.theData y) : d.get y = e.get y := by
  simp only [DoubleAnnual.get, hb, hl, hd]

/-- C5, as amended: for every Trustees Report alternative `a` and every series
`custom`, for every year `y` from `getFirstYear()` on that lies in the range of
the stored series of `a`, of the active series and of `custom`, `setData(a,
custom)` followed by `setData(a)` return and leave `awinc[y] == custom[y]`; and
for every `custom`, whenever the two calls return, every year of `awinc` before
`getFirstYear()` has the value it had before the two calls; the two calls return
whenever the stored series of `a` reaches `getFirstYear()` and the active series
reaches `max(getFirstYear(), awinc.getBaseYear())`. -/
theorem setDataWith_then_setData_gives_custom (s : AwincNonFile) (a : Int)
    (custom : DoubleAnnual) (k : Fin NUMASSUMSETS)
    (htr : AssumptionType.isTR a = true) (hk : slot (a - 1) = .ok k) :
    (∀ y : Int, s.getFirstYear ≤ y →
      (s.awincprojtr k).getBaseYear ≤ y → y ≤ (s.awincprojtr k).getLastYear →
      s.awinc.getBaseYear ≤ y → y ≤ s.awinc.getLastYear →
      custom.getBaseYear ≤ y → y ≤ custom.getLastYear →
      ∃ s1 s2 v, setDataWith s a custom = .ok s1 ∧ setData s1 a = .ok s2 ∧
        s2.awinc.get y = .ok v ∧ custom.get y = .ok v) ∧
    (∀ s1 s2, setDataWith s a custom = .ok s1 → setData s1 a = .ok s2 →
      ∀ z : Int, z < s.getFirstYear →
        s2.awinc.theData z = s.awinc.theData z ∧ s2.awinc.get z = s.awinc.get z) ∧
    ((s.awincprojtr k).getBaseYear ≤ (s.awincprojtr k).getLastYear →
      s.getFirstYear ≤ (s.awincprojtr k).getLastYear →
      max s.getFirstYear s.awinc.getBaseYear ≤ s.awinc.getLastYear →
      ∃ s1 s2, setDataWith s a custom = .ok s1 ∧ setData s1 a = .ok s2) := by
  have ha : a = (k.val : Int) + 1 := by have := slot_inv _ _ hk; omega
  subst ha
  simp only [DoubleAnnual.getBaseYear, DoubleAnnual.getLastYear, getFirstYear] at *
  have hm2 : s.firstYear ≤ max s.firstYear s.awinc.baseYear := le_max_left _ _
  have e2 := fun h3 => setData_tr_eq
    { s with
      awincprojtr := (Function.update s.awincprojtr k
        ((s.awincprojtr k).copied custom s.firstYear (s.awincprojtr k).lastYear))
      awinc := (s.awinc.copied
        ((s.awincprojtr k).copied custom s.firstYear (s.awincprojtr k).lastYear)
        (max s.firstYear s.awinc.baseYear) s.awinc.lastYear) } k h3
  refine ⟨?_, ?_, ?_⟩
  · intro y hy1 hy2 hy3 hy4 hy5 hy6 hy7
    have h3 : max s.firstYear s.awinc.baseYear ≤ s.awinc.lastYear := by
      rcases max_cases s.firstYear s.awinc.baseYear with ⟨e, _⟩ | ⟨e, _⟩ <;> rw [e] <;> omega
    have hm1 : max s.firstYear s.awinc.baseYear ≤ y := max_le hy1 hy4
    have e1 := setDataWith_tr_eq s k custom (by omega) (by omega) h3
    refine ⟨_, _, custom.theData y, e1, e2 h3, ?_, get_of_mem _ _ hy6 hy7⟩
    simp only [Function.update_same]
    refine (copied_get_of_mem _ _ _ _ y ?_ ?_ ?_ ?_ ?_ ?_).trans ?_
    · exact hm1
    · exact hy5
    · exact hy4
    · exact hy5
    · exact hy2
    · exact hy3
    · exact (copied_get_of_mem _ _ _ _ y hy1 hy3 hy2 hy3 hy6 hy7).trans (get_of_mem _ _ hy6 hy7)
  · intro s1 s2 h1 h2 z hz
    have hz2 : z < max s.firstYear s.awinc.baseYear := by omega
    rcases setDataWith_inv s s1 _ custom h1 with ⟨hf, _⟩ | ⟨_, k2, d, _, _, h1b⟩
    · rw [htr] at hf
      cases hf
    · obtain ⟨_, _, _, f4, f5, f6, f7⟩ := setData_frame _ s1 _ h1b
      obtain ⟨_, _, _, _, g5, g6, g7⟩ := setData_frame s1 s2 _ h2
      have f4b : s1.firstYear = s.firstYear := f4
      have f5b : s1.awinc.baseYear = s.awinc.baseYear := f5
      have f6b : s1.awinc.lastYear = s.awinc.lastYear := f6
      have t1 : s1.awinc.theData z = s.awinc.theData z := f7 z hz2
      have t2 : s2.awinc.theData z = s1.awinc.theData z :=
        g7 z (by rw [f4b, f5b]; exact hz2)
      have t3 : s2.awinc.theData z = s.awinc.theData z := t2.trans t1
      exact ⟨t3, get_congr _ _ z (g5.trans f5b) (g6.trans f6b) t3⟩
  · intro c1 c2 c3
    exact ⟨_, _, setDataWith_tr_eq s k custom c1 c2 c3, e2 c3⟩

/-- C5, witness: alternative 1 on a store whose engine starts in 2023.  With the
series `custom` that is 1 in 1900 .. 2200 and the year 2050 the two calls return,
`awinc[2050] == custom[2050]` and the years before 2023 are as before; with a
series over 3000 .. 3001, which shares no year with the store, the two calls
return and the years before 2023 are as before. -/
theorem setDataWith_then_setData_gives_custom_witness :
    (∃ s1 s2 v, setDataWith sampleStore 1 sampleCustom = .ok s1 ∧ setData s1 1 = .ok s2 ∧
      s2.awinc.get 2050 = .ok v ∧ sampleCustom.get 2050 = .ok v ∧
      ∀ z : Int, z < sampleStore.getFirstYear →
        s2.awinc.theData z = sampleStore.awinc.theData z ∧
        s2.awinc.get z = sampleStore.awinc.get z) ∧
    (∃ s1 s2, setDataWith sampleStore 1 sampleCustomFar = .ok s1 ∧ setData s1 1 = .ok s2 ∧
      ∀ z : Int, z < sampleStore.getFirstYear →
        s2.awinc.theData z = sampleStore.awinc.theData z ∧
        s2.awinc.get z = sampleStore.awinc.get z) := by
  have h := setDataWith_then_setData_gives_custom sampleStore 1 sampleCustom slotOne
    (by decide) rfl
  have g := setDataWith_then_setData_gives_custom sampleStore 1 sampleCustomFar slotOne
    (by decide) rfl
  obtain ⟨s1, s2, v, e1, e2, v1, v2⟩ := h.1 2050 (by decide) (by decide) (by decide)
    (by decide) (by decide) (by decide) (by decide)
  obtain ⟨t1, t2, d1, d2⟩ := g.2.2 (by decide) (by decide) (by decide)
  exact ⟨⟨s1, s2, v, e1, e2, v1, v2, h.2.1 s1 s2 e1 e2⟩, ⟨t1, t2, d1, d2, g.2.1 t1 t2 d1 d2⟩⟩

/-- C5, counterexample.  First: after `AwincNonFile(1951, 2030)` the last year of
the stored series is 2037 and the last year of the active series is 2030; after
`setData(1, custom)` and `setData(1)` with `custom` equal to 1 in 1900 .. 2200,
the year 2035 of `[getFirstYear(), awincprojtr[0].getLastYear()]` has
`custom[2035] = 1` but is no year of `awinc`.  Second: after
`AwincNonFile(1951, 2100)` and the same calls with a `custom` that covers
2030 .. 2040 only, the year 2000 has `awinc[2000]` equal to the historical
5.529993 and is no year of `custom`. -/
theorem setDataWith_then_setData_outside_overlap :
    (∃ s s1 s2, construct sampleDocShort sampleFresh 1951 2030 = .ok s ∧
      setDataWith s 1 sampleCustom = .ok s1 ∧ setData s1 1 = .ok s2 ∧
      s.getFirstYear ≤ 2035 ∧ (2035 : Int) ≤ (s.awincprojtr slotOne).getLastYear ∧
      s2.awinc.get 2035 = .error (Err.pia DoubleAnnual.rangeErrorText) ∧
      sampleCustom.get 2035 = .ok 1) ∧
    (∃ s s1 s2, construct sampleDoc sampleFresh 1951 2100 = .ok s ∧
      setDataWith s 1 sampleCustomShort = .ok s1 ∧ setData s1 1 = .ok s2 ∧
      s.getFirstYear ≤ 2000 ∧ (2000 : Int) ≤ (s.awincprojtr slotOne).getLastYear ∧
      s2.awinc.get 2000 = .ok 5.529993 ∧
      sampleCustomShort.get 2000 = .error (Err.pia DoubleAnnual.rangeErrorText)) := by
  constructor
  · refine ⟨_, _, _, construct_eq _ _ _ _, setDataWith_tr_eq _ slotOne sampleCustom ?_ ?_ ?_,
      setData_tr_eq _ slotOne ?_, ?_, ?_, ?_, ?_⟩
    · decide
    · decide
    · decide
    · decide
    · decide
    · decide
    · rfl
    · rfl
  · refine ⟨_, _, _, construct_eq _ _ _ _,
      setDataWith_tr_eq _ slotOne sampleCustomShort ?_ ?_ ?_,
      setData_tr_eq _ slotOne ?_, ?_, ?_, ?_, ?_⟩
    · decide
    · decide
    · decide
    · decide
    · decide
    · decide
    · rfl
    · rfl

theorem publishedSplice_eq (k : Fin NUMASSUMSETS) (y : Int) (h : 1978 ≤ y) :
    publishedSplice ((k.val : Int) + 1) y =
      .ok (if 2038 ≤ y then ultAt k else if 2022 ≤ y then projAt k y else histAt y) := by
  unfold publishedSplice
  simp only [BaseYearNonFile.YEAR, NUMPROJYEARS]
  by_cases c1 : y < 2023 - 1
  · have c2 : ¬ (2038 ≤ y) := by omega
    have c3 : ¬ (2022 ≤ y) := by omega
    rw [if_pos c1, if_neg c2, if_neg c3]
    exact hist_lookup y h (by omega)
  · by_cases c2 : y ≤ 2023 + 16 - 2
    · have c3 : ¬ (2038 ≤ y) := by omega
      have c4 : 2022 ≤ y := by omega
      rw [if_neg c1, if_pos c2, if_neg c3, if_pos c4]
      exact proj_lookup k y c4 (by omega)
    · have c3 : 2038 ≤ y := by omega
      rw [if_neg c1, if_neg c2, if_pos c3]
      exact ult_lookup k

theorem built_get_published (doc : AwincDoc) (fresh : Int → ℚ) (newIstart newMaxyear : Int)
    (k : Fin NUMASSUMSETS) (y : Int) (h1 : 1978 ≤ y) (h2 : y ≤ max 2037 newMaxyear) :
    ((built doc fresh (min 1978 newIstart) (max 2037 newMaxyear)).awincprojtr k).get y =
      publishedSplice ((k.val : Int) + 1) y := by
  have hmin : min (1978 : Int) newIstart ≤ 1978 := min_le_left _ _
  rw [get_of_mem _ _ (by rw [built_baseYear]; omega) (by rw [built_lastYear]; omega),
    built_theData, publishedSplice_eq k y h1]
  congr 1
  split_ifs <;> first | rfl | (exfalso; omega)

/-- C6, as amended: for every Trustees Report alternative `a` and every year `y`
with `max(getFirstYear(), awinc.getBaseYear()) <= y <= awinc.getLastYear()` that
lies in the range of the stored series of `a`, `setData(a)` returns and leaves
`awinc[y] == awincprojtr[a-1][y]`; immediately after construction this value is
the published splice value of `a` (historical, short-range table or ultimate
rate) when `y` is 1978 or later. -/
theorem setData_copies_stored_series (s : AwincNonFile) (a : Int) (k : Fin NUMASSUMSETS)
    (y : Int) (htr : AssumptionType.isTR a = true) (hk : slot (a - 1) = .ok k)
    (hy1 : max s.getFirstYear s.awinc.getBaseYear ≤ y) (hy2 : y ≤ s.awinc.getLastYear)
    (hy3 : (s.awincprojtr k).getBaseYear ≤ y) (hy4 : y ≤ (s.awincprojtr k).getLastYear) :
    ∃ s1 v, setData s a = .ok s1 ∧ s1.awinc.get y = .ok v ∧
      (s1.awincprojtr k).get y = .ok v ∧
      ∀ (doc : AwincDoc) (fresh : Int → ℚ) (newIstart newMaxyear : Int),
        construct doc fresh newIstart newMaxyear = .ok s → YEAR79 - 1 ≤ y →
        publishedSplice a y = .ok v := by
  have ha : a = (k.val : Int) + 1 := by have := slot_inv _ _ hk; omega
  subst ha
  simp only [DoubleAnnual.getBaseYear, DoubleAnnual.getLastYear, getFirstYear] at *
  have hb : s.awinc.baseYear ≤ max s.firstYear s.awinc.baseYear := le_max_right _ _
  refine ⟨_, (s.awincprojtr k).theData y, setData_tr_eq s k (by omega), ?_,
    get_of_mem _ _ hy3 hy4, ?_⟩
  · exact (copied_get_of_mem _ _ _ _ y hy1 hy2 (by omega) hy2 hy3 hy4).trans
      (get_of_mem _ _ hy3 hy4)
  · intro doc fresh newIstart newMaxyear hc h78
    rw [construct_eq] at hc
    injection hc with hc
    subst hc
    simp only [YEAR79] at h78
    rw [← built_get_published doc fresh newIstart newMaxyear k y (by omega) hy4]
    exact get_of_mem _ _ hy3 hy4

/-- C6, witness: alternative 2 and the year 2030 on the object built by
`AwincNonFile(1951, 2100)`. -/
theorem setData_copies_stored_series_witness :
    ∃ s1 v, setData (built sampleDoc sampleFresh 1951 2100) 2 = .ok s1 ∧
      s1.awinc.get 2030 = .ok v ∧
      (s1.awincprojtr ⟨1, by decide⟩).get 2030 = .ok v ∧ publishedSplice 2 2030 = .ok v := by
  obtain ⟨s1, v, h1, h2, h3, h4⟩ :=
    setData_copies_stored_series (built sampleDoc sampleFresh 1951 2100) 2 ⟨1, by decide⟩ 2030
      (by decide) rfl (by decide) (by decide) (by decide) (by decide)
  exact ⟨s1, v, h1, h2, h3,
    h4 sampleDoc sampleFresh 1951 2100 (construct_eq _ _ _ _) (by decide)⟩

/-- C6, counterexample: after `AwincNonFile(1951, 2100)` for an engine that starts
in 1951 and an active series over 1937 .. 2100, the year 1977 lies in
`max(getFirstYear(), awinc.getBaseYear()) .. awinc.getLastYear()` and in the range
of both series; `setData(1)` copies the stored value of 1977, which is what the
new series held (0) and no published value: the historical record starts in
1978. -/
theorem setData_after_construct_not_published :
    ∃ s s1, construct sampleDoc sampleFresh 1951 2100 = .ok s ∧
      AssumptionType.isTR 1 = true ∧ setData s 1 = .ok s1 ∧
      max s.getFirstYear s.awinc.getBaseYear ≤ 1977 ∧ (1977 : Int) ≤ s.awinc.getLastYear ∧
      (s.awincprojtr slotOne).getBaseYear ≤ 1977 ∧
      (1977 : Int) ≤ (s.awincprojtr slotOne).getLastYear ∧
      s1.awinc.get 1977 = .ok 0 ∧ (s1.awincprojtr slotOne).get 1977 = .ok 0 ∧
      publishedSplice 1 1977 = .error Err.outOfBounds := by
  refine ⟨_, _, construct_eq _ _ _ _, rfl, setData_tr_eq _ slotOne ?_, ?_, ?_, ?_, ?_, ?_, ?_, ?_⟩
  · decide
  · decide
  · decide
  · decide
  · decide
  · rfl
  · rfl
  · rfl

/-- C7: for every alternative number `a` that is not a Trustees Report
alternative and every year `y` with
`max(getFirstYear(), awinc.getBaseYear()) <= y <= awinc.getLastYear()`,
`setData(a)` returns and leaves `awinc[y] == 0.0`, whatever the stored series
hold. -/
theorem setData_not_tr_zero_fills (s : AwincNonFile) (a y : Int)
    (hn : AssumptionType.isTR a = false)
    (hy1 : max s.getFirstYear s.awinc.getBaseYear ≤ y) (hy2 : y ≤ s.awinc.getLastYear) :
    ∃ s1, setData s a = .ok s1 ∧ s1.awinc.get y = .ok 0.0 := by
  simp only [DoubleAnnual.getBaseYear, DoubleAnnual.getLastYear, getFirstYear] at *
  have hb : s.awinc.baseYear ≤ max s.firstYear s.awinc.baseYear := le_max_right _ _
  refine ⟨_, setData_nontr_eq s a hn (by omega), ?_⟩
  have c : max s.firstYear s.awinc.baseYear ≤ y ∧ y ≤ s.awinc.lastYear ∧
      s.awinc.baseYear ≤ y ∧ y ≤ s.awinc.lastYear := ⟨hy1, hy2, by omega, hy2⟩
  show (s.awinc.filled 0.0 _ _).get y = _
  rw [get_of_mem _ _ (by show s.awinc.baseYear ≤ y; omega) (by show y ≤ s.awinc.lastYear; omega)]
  simp only [DoubleAnnual.filled, if_pos c]

/-- C7, witness: alternative number 5 and the year 2050 on a store whose series
all hold 7. -/
theorem setData_not_tr_zero_fills_witness :
    ∃ s1, setData sampleStore 5 = .ok s1 ∧ s1.awinc.get 2050 = .ok 0.0 :=
  setData_not_tr_zero_fills sampleStore 5 2050 (by decide) (by decide) (by decide)

theorem doubleAnnual_eq (d e : DoubleAnnual) (hb : d.baseYear = e.baseYear)
    (hl : d.lastYear = e.lastYear) (hd : ∀ z, d.theData z = e.theData z) : d = e := by
  cases d
  cases e
  simp only at hb hl hd
  subst hb
  subst hl
  congr 1
  funext z
  exact hd z

theorem restored_idem (k : Fin NUMASSUMSETS) (d : DoubleAnnual) :
    restored k (restored k d) = restored k d := by
  apply doubleAnnual_eq
  · rfl
  · rfl
  · intro z
    rw [restored_theData, restored_theData, restored_lastYear]
    split_ifs <;> rfl

/-- C8: `read(a)` is idempotent.  For every alternative `a` in 1..4 and every
store state, `read(a)` returns a state on which a second `read(a)` returns that
same state: the same stored series for every alternative, the same stored titles
and the same inherited members. -/
theorem read_idempotent (s : AwincNonFile) (a : Int) (hs : SeriesRange s)
    (h1 : 1 ≤ a) (h4 : a ≤ 4) :
    ∃ s1, read s a = .ok s1 ∧ read s1 a = .ok s1 := by
  obtain ⟨k, rfl⟩ := alt_cases a h1 h4
  obtain ⟨hb, hl⟩ := seriesRange_bounds s hs k
  refine ⟨_, read_eq s k (by omega) hl, ?_⟩
  have e := read_eq
    { s with
      titletr := (Function.update s.titletr k (titleAt k))
      awincprojtr := (Function.update s.awincprojtr k (restored k (s.awincprojtr k))) } k
    (by simp only [Function.update_same, restored_baseYear]; omega)
    (by simp only [Function.update_same, restored_lastYear]; exact hl)
  rw [e]
  simp only [Function.update_same, Function.update_idem, restored_idem]

/-- C8, witness: `read(4)` twice on a store whose series all hold 7. -/
theorem read_idempotent_witness :
    ∃ s1, read sampleStore 4 = .ok s1 ∧ read s1 4 = .ok s1 :=
  read_idempotent sampleStore 4
    (fun _ => ⟨(by decide : (1951 : Int) ≤ 1978), (by decide : (2037 : Int) ≤ 2100)⟩)
    (by decide) (by decide)

/-- C9, as amended: for all constructor arguments the constructor returns and the
stored series of alternative 1 holds 4.716759 at `BY-1` and the last short-range
value 4.915780 at `BY-2+W`; `awincult[0]` is 4.8; and when `newMaxyear` is at
least `BY-1+W` the year `BY-1+W` exists in the series and holds 4.8. -/
theorem construct_alternative_one_scenario (doc : AwincDoc) (fresh : Int → ℚ)
    (newIstart newMaxyear : Int) :
    ∃ s, construct doc fresh newIstart newMaxyear = .ok s ∧
      (s.awincprojtr slotOne).get (BaseYearNonFile.YEAR - 1) = .ok 4.716759 ∧
      (s.awincprojtr slotOne).get (BaseYearNonFile.YEAR - 2 + NUMPROJYEARS) = .ok 4.915780 ∧
      cArrayGet awincult 0 = .ok 4.8 ∧
      (BaseYearNonFile.YEAR - 1 + NUMPROJYEARS ≤ newMaxyear →
        (s.awincprojtr slotOne).get (BaseYearNonFile.YEAR - 1 + NUMPROJYEARS) = .ok 4.8) := by
  have hmin : min (1978 : Int) newIstart ≤ 1978 := min_le_left _ _
  have hmax : (2037 : Int) ≤ max 2037 newMaxyear := le_max_left _ _
  have e1 : BaseYearNonFile.YEAR - 1 = 2022 := by decide
  have e2 : BaseYearNonFile.YEAR - 2 + NUMPROJYEARS = 2037 := by decide
  have e3 : BaseYearNonFile.YEAR - 1 + NUMPROJYEARS = 2038 := by decide
  refine ⟨_, construct_eq doc fresh newIstart newMaxyear, ?_, ?_, rfl, ?_⟩
  · rw [e1, get_of_mem _ _ (by rw [built_baseYear]; omega) (by rw [built_lastYear]; omega),
      built_theData]
    have c1 : ¬ (2038 ≤ (2022 : Int) ∧ (2022 : Int) ≤ max 2037 newMaxyear) := by omega
    rw [if_neg c1]
    rfl
  · rw [e2, get_of_mem _ _ (by rw [built_baseYear]; omega) (by rw [built_lastYear]; omega),
      built_theData]
    have c1 : ¬ (2038 ≤ (2037 : Int) ∧ (2037 : Int) ≤ max 2037 newMaxyear) := by omega
    rw [if_neg c1]
    rfl
  · intro h
    rw [e3] at h ⊢
    have h2 : (2038 : Int) ≤ max 2037 newMaxyear := le_trans h (le_max_right _ _)
    rw [get_of_mem _ _ (by rw [built_baseYear]; omega) (by rw [built_lastYear]; omega),
      built_theData]
    have c1 : 2038 ≤ (2038 : Int) ∧ (2038 : Int) ≤ max 2037 newMaxyear := ⟨le_refl _, h2⟩
    rw [if_pos c1]
    rfl

/-- C9, witness: `AwincNonFile(1951, 2100)`, whose stored series reach 2100. -/
theorem construct_alternative_one_scenario_witness :
    ∃ s, construct sampleDoc sampleFresh 1951 2100 = .ok s ∧
      (s.awincprojtr slotOne).get (BaseYearNonFile.YEAR - 1) = .ok 4.716759 ∧
      (s.awincprojtr slotOne).get (BaseYearNonFile.YEAR - 2 + NUMPROJYEARS) = .ok 4.915780 ∧
      cArrayGet awincult 0 = .ok 4.8 ∧
      (s.awincprojtr slotOne).get (BaseYearNonFile.YEAR - 1 + NUMPROJYEARS) = .ok 4.8 := by
  obtain ⟨s, h1, h2, h3, h4, h5⟩ :=
    construct_alternative_one_scenario sampleDoc sampleFresh 1951 2100
  exact ⟨s, h1, h2, h3, h4, h5 (by decide)⟩

/-- C9, counterexample: after `AwincNonFile(1951, 2030)` the stored series of
alternative 1 ends in 2037 = `BY-2+W`, and reading the year `BY-1+W` = 2038 is a
range error: the year does not exist in the series. -/
theorem construct_short_series_has_no_ultimate_year :
    ∃ s, construct sampleDoc sampleFresh 1951 2030 = .ok s ∧
      (s.awincprojtr slotOne).getLastYear = BaseYearNonFile.YEAR - 2 + NUMPROJYEARS ∧
      (s.awincprojtr slotOne).get (BaseYearNonFile.YEAR - 1 + NUMPROJYEARS) =
        .error (Err.pia DoubleAnnual.rangeErrorText) := by
  refine ⟨_, construct_eq _ _ _ _, ?_, ?_⟩
  · decide
  · rfl

/-- C10, as amended: for all constructor arguments and every alternative `a` in
1..4 the constructor returns, the stored series of `a` spans exactly
`[min(1978, newIstart), max(YEAR+NUMPROJYEARS-2, newMaxyear)]`, every year of it
from 1978 on holds the published value the constructor assigned (historical
record, short-range table or ultimate rate), and every year of it before 1978
holds what the newly allocated series held: the constructor assigns nothing
there. -/
theorem construct_range_and_assigned_years (doc : AwincDoc) (fresh : Int → ℚ)
    (newIstart newMaxyear a y : Int) (h1 : 1 ≤ a) (h4 : a ≤ 4) :
    ∃ s k, construct doc fresh newIstart newMaxyear = .ok s ∧ slot (a - 1) = .ok k ∧
      (s.awincprojtr k).getBaseYear = min (YEAR79 - 1) newIstart ∧
      (s.awincprojtr k).getLastYear =
        max (BaseYearNonFile.YEAR + NUMPROJYEARS - 2) newMaxyear ∧
      (YEAR79 - 1 ≤ y → y ≤ (s.awincprojtr k).getLastYear →
        ∃ v, (s.awincprojtr k).get y = .ok v ∧ publishedSplice a y = .ok v) ∧
      ((s.awincprojtr k).getBaseYear ≤ y → y < YEAR79 - 1 →
        (s.awincprojtr k).get y = .ok (fresh y)) := by
  obtain ⟨k, rfl⟩ := alt_cases a h1 h4
  have hmin : min (1978 : Int) newIstart ≤ 1978 := min_le_left _ _
  have hmax : (2037 : Int) ≤ max 2037 newMaxyear := le_max_left _ _
  refine ⟨_, k, construct_eq doc fresh newIstart newMaxyear, slot_natCast k, rfl, rfl, ?_, ?_⟩
  · intro hy1 hy2
    simp only [YEAR79, DoubleAnnual.getLastYear, built_lastYear] at hy1 hy2
    rw [built_get_published doc fresh newIstart newMaxyear k y (by omega) hy2]
    exact ⟨_, publishedSplice_eq k y (by omega), publishedSplice_eq k y (by omega)⟩
  · intro hy1 hy2
    simp only [YEAR79, DoubleAnnual.getBaseYear, built_baseYear] at hy1 hy2
    rw [get_of_mem _ _ (by rw [built_baseYear]; omega) (by rw [built_lastYear]; omega),
      built_theData]
    have c1 : ¬ (2038 ≤ y ∧ y ≤ max 2037 newMaxyear) := by omega
    have c2 : ¬ (2022 ≤ y ∧ y ≤ 2037) := by omega
    have c3 : ¬ (1978 ≤ y ∧ y ≤ 2021) := by omega
    rw [if_neg c1, if_neg c2, if_neg c3]

/-- C10, witness: alternative 3 and the year 1990 after `AwincNonFile(1970, 2100)`. -/
theorem construct_range_and_assigned_years_witness :
    ∃ s k, construct sampleDoc sampleFresh 1970 2100 = .ok s ∧ slot (3 - 1) = .ok k ∧
      (s.awincprojtr k).getBaseYear = min (YEAR79 - 1) 1970 ∧
      (s.awincprojtr k).getLastYear = max (BaseYearNonFile.YEAR + NUMPROJYEARS - 2) 2100 ∧
      (YEAR79 - 1 ≤ 1990 → 1990 ≤ (s.awincprojtr k).getLastYear →
        ∃ v, (s.awincprojtr k).get 1990 = .ok v ∧ publishedSplice 3 1990 = .ok v) ∧
      ((s.awincprojtr k).getBaseYear ≤ 1990 → 1990 < YEAR79 - 1 →
        (s.awincprojtr k).get 1990 = .ok (sampleFresh 1990)) :=
  construct_range_and_assigned_years sampleDoc sampleFresh 1970 2100 3 1990
    (by decide) (by decide)

/-- C10, counterexample: after `AwincNonFile(1970, 2100)` the year 1977 is in the
range of the stored series of alternative 1, and what it holds is what the newly
allocated series held (99 for one content of new series, 0 for another); the
constructor has assigned it no value, and no published value exists for 1977. -/
theorem construct_leaves_years_before_1978_unassigned :
    ∃ s t, construct sampleDoc (fun _ => 99) 1970 2100 = .ok s ∧
      construct sampleDoc (fun _ => 0) 1970 2100 = .ok t ∧
      (s.awincprojtr slotOne).getBaseYear ≤ 1977 ∧
      (1977 : Int) ≤ (s.awincprojtr slotOne).getLastYear ∧
      (s.awincprojtr slotOne).get 1977 = .ok 99 ∧
      (t.awincprojtr slotOne).get 1977 = .ok 0 ∧
      publishedSplice 1 1977 = .error Err.outOfBounds := by
  refine ⟨_, _, construct_eq _ _ _ _, construct_eq _ _ _ _, ?_, ?_, ?_, ?_, ?_⟩
  · decide
  · decide
  · rfl
  · rfl
  · rfl

theorem proj_lookup_index (k : Fin NUMASSUMSETS) (i : Int) (h0 : 0 ≤ i) (h1 : i ≤ 15) :
    (cArrayGet awincprojtrOriginal ((k.val : Int) + 1 - 1) >>= fun row => cArrayGet row i) =
      .ok (projAt k (2022 + i)) := by
  have h := proj_lookup k (2022 + i) (by omega) (by omega)
  have e : 2022 + i - (BaseYearNonFile.YEAR - 1) = i := by
    simp only [BaseYearNonFile.YEAR]; omega
  rwa [e] at h

/-- C11, as amended: for every alternative `a` in 1..4, `read(a)` returns and
afterwards the series of `a` holds, for each `i` in 0..NUMPROJYEARS-1, the `i`-th
published short-range value at year `YEAR - 1 + i` (years `YEAR-1 ..
YEAR+NUMPROJYEARS-2`), and the ultimate rate in every year after
`YEAR+NUMPROJYEARS-2` up to the last year; `read(a)` changes no year of the series
that is before `YEAR - 1`. -/
theorem read_places_table_from_year_before_base (s : AwincNonFile) (a : Int)
    (hs : SeriesRange s) (h1 : 1 ≤ a) (h4 : a ≤ 4) :
    ∃ s1 k, read s a = .ok s1 ∧ slot (a - 1) = .ok k ∧
      (∀ i : Int, 0 ≤ i → i ≤ NUMPROJYEARS - 1 →
        ∃ v, (s1.awincprojtr k).get (BaseYearNonFile.YEAR - 1 + i) = .ok v ∧
          (cArrayGet awincprojtrOriginal (a - 1) >>= fun row => cArrayGet row i) = .ok v) ∧
      (∀ y : Int, BaseYearNonFile.YEAR - 1 + NUMPROJYEARS ≤ y →
        y ≤ (s1.awincprojtr k).getLastYear →
        ∃ v, (s1.awincprojtr k).get y = .ok v ∧ cArrayGet awincult (a - 1) = .ok v) ∧
      (∀ y : Int, y < BaseYearNonFile.YEAR - 1 →
        (s1.awincprojtr k).get y = (s.awincprojtr k).get y) := by
  obtain ⟨k, rfl⟩ := alt_cases a h1 h4
  obtain ⟨hb, hl⟩ := seriesRange_bounds s hs k
  refine ⟨_, k, read_eq s k (by omega) hl, slot_natCast k, ?_, ?_, ?_⟩
  · intro i hi0 hi1
    simp only [NUMPROJYEARS] at hi1
    have e : BaseYearNonFile.YEAR - 1 + i = 2022 + i := by
      simp only [BaseYearNonFile.YEAR]; omega
    refine ⟨projAt k (2022 + i), ?_, proj_lookup_index k i hi0 (by omega)⟩
    simp only [Function.update_same]
    rw [e]
    exact restored_get_short k _ (2022 + i) (by omega) hl (by omega) (by omega)
  · intro y hy1 hy2
    simp only [BaseYearNonFile.YEAR, NUMPROJYEARS, DoubleAnnual.getLastYear,
      Function.update_same, restored_lastYear] at hy1 hy2
    refine ⟨ultAt k, ?_, ult_lookup k⟩
    simp only [Function.update_same]
    exact restored_get_long k _ y (by omega) (by omega) hy2
  · intro y hy
    simp only [BaseYearNonFile.YEAR] at hy
    simp only [Function.update_same]
    exact restored_get_before k _ y (by omega)

/-- C11, witness: `read(2)` on a store whose series all hold 7 in 1951 .. 2100. -/
theorem read_places_table_from_year_before_base_witness :
    ∃ s1 k, read sampleStore 2 = .ok s1 ∧ slot (2 - 1) = .ok k ∧
      (∀ i : Int, 0 ≤ i → i ≤ NUMPROJYEARS - 1 →
        ∃ v, (s1.awincprojtr k).get (BaseYearNonFile.YEAR - 1 + i) = .ok v ∧
          (cArrayGet awincprojtrOriginal (2 - 1) >>= fun row => cArrayGet row i) = .ok v) ∧
      (∀ y : Int, BaseYearNonFile.YEAR - 1 + NUMPROJYEARS ≤ y →
        y ≤ (s1.awincprojtr k).getLastYear →
        ∃ v, (s1.awincprojtr k).get y = .ok v ∧ cArrayGet awincult (2 - 1) = .ok v) ∧
      (∀ y : Int, y < BaseYearNonFile.YEAR - 1 →
        (s1.awincprojtr k).get y = (sampleStore.awincprojtr k).get y) :=
  read_places_table_from_year_before_base sampleStore 2
    (fun _ => ⟨(by decide : (1951 : Int) ≤ 1978), (by decide : (2037 : Int) ≤ 2100)⟩)
    (by decide) (by decide)

/-- C11, counterexample: `read(1)` on a store whose series all hold 7 in
1951 .. 2100.  At the base year (`k = 0`) the series holds 4.745898, the value of
index 1, and not the value 4.716759 of index 0; at base year + 15, a year of
base-year .. base-year+window-1, it holds the ultimate rate 4.8 and not the value
4.915780 of index 15; and the year before the base year has changed from 7 to
4.716759. -/
theorem read_table_is_not_placed_from_base_year :
    ∃ s1, read sampleStore 1 = .ok s1 ∧
      (s1.awincprojtr slotOne).get (BaseYearNonFile.YEAR + 0) = .ok 4.745898 ∧
      (cArrayGet awincprojtrOriginal (1 - 1) >>= fun row => cArrayGet row 0) = .ok 4.716759 ∧
      (4.745898 : ℚ) ≠ 4.716759 ∧
      (s1.awincprojtr slotOne).get (BaseYearNonFile.YEAR + 15) = .ok 4.8 ∧
      (cArrayGet awincprojtrOriginal (1 - 1) >>= fun row => cArrayGet row 15) = .ok 4.915780 ∧
      (4.8 : ℚ) ≠ 4.915780 ∧
      (sampleStore.awincprojtr slotOne).get (BaseYearNonFile.YEAR - 1) = .ok 7 ∧
      (s1.awincprojtr slotOne).get (BaseYearNonFile.YEAR - 1) = .ok 4.716759 ∧
      (7 : ℚ) ≠ 4.716759 := by
  refine ⟨_, read_eq sampleStore slotOne ?_ ?_, ?_, ?_, by norm_num, ?_, ?_, by norm_num,
    ?_, ?_, by norm_num⟩
  · decide
  · decide
  · rfl
  · rfl
  · rfl
  · rfl
  · rfl
  · rfl

theorem isNotTR_slot (k : Fin NUMASSUMSETS) :
    AssumptionType.isNotTR ((k.val : Int) + 1) = false := by
  simp only [AssumptionType.isNotTR, isTR_slot, Bool.not_true]

theorem setTitleWith_tr_eq (avgwage : List String) (s : AwincNonFile) (k : Fin NUMASSUMSETS)
    (newTitle : String) :
    setTitleWith avgwage s ((k.val : Int) + 1) newTitle = .ok { s with
      titletr := Function.update s.titletr k newTitle
      awincTitle := newTitle } := by
  unfold setTitleWith
  simp only [isNotTR_slot, slot_natCast]
  show Except.ok _ = Except.ok _
  simp only [Function.update_same]

theorem setTitle_tr_eq (avgwage : List String) (s : AwincNonFile) (k : Fin NUMASSUMSETS) :
    setTitle avgwage s ((k.val : Int) + 1) = .ok { s with awincTitle := s.titletr k } := by
  unfold setTitle
  simp only [isNotTR_slot, slot_natCast]
  rfl

theorem setTitle_nontr_eq (avgwage : List String) (s : AwincNonFile) (a : Int) (t : String)
    (hn : AssumptionType.isNotTR a = true)
    (ht : cArrayGet avgwage (a - AssumptionType.FLAT) = .ok t) :
    setTitle avgwage s a = .ok { s with awincTitle := t } := by
  unfold setTitle
  simp only [hn, if_true, ht]
  rfl

theorem setTitleWith_nontr (avgwage : List String) (s : AwincNonFile) (a : Int)
    (newTitle : String) (hn : AssumptionType.isNotTR a = true) :
    setTitleWith avgwage s a newTitle = setTitle avgwage s a := by
  unfold setTitleWith setTitle
  simp only [hn, if_true]

theorem title_lookup (k : Fin NUMASSUMSETS) :
    cArrayGet titletrOriginal ((k.val : Int) + 1 - 1) = .ok (titleAt k) := by
  have hk : (k.val : Int) + 1 - 1 = (k.val : Int) := by ring
  have hlen : k.val < titletrOriginal.length := k.isLt
  rw [hk]
  exact cArrayGet_natCast titletrOriginal k.val "" hlen

/-- C12: title round trip.  For every Trustees Report alternative `a` in 1..4
and every string `X`, `setTitle(a, X)` returns with the stored title
`titletr[a-1]` and the active title `awincTitle` both equal to `X`, and a
following `setTitle(a)` returns with the active title still equal to `X`. -/
theorem setTitleWith_then_setTitle_round_trip (avgwage : List String) (s : AwincNonFile)
    (a : Int) (X : String) (htr : AssumptionType.isTR a = true) (h1 : 1 ≤ a) (h4 : a ≤ 4) :
    ∃ s1 s2 k, setTitleWith avgwage s a X = .ok s1 ∧ slot (a - 1) = .ok k ∧
      s1.titletr k = X ∧ s1.awincTitle = X ∧
      setTitle avgwage s1 a = .ok s2 ∧ s2.awincTitle = X ∧ s2.titletr k = X := by
  obtain ⟨k, rfl⟩ := alt_cases a h1 h4
  refine ⟨_, _, k, setTitleWith_tr_eq avgwage s k X, slot_natCast k, ?_, rfl,
    setTitle_tr_eq avgwage _ k, ?_, ?_⟩
  · simp only [Function.update_same]
  · simp only [Function.update_same]
  · simp only [Function.update_same]

/-- C12, witness: `setTitle(3, "X")` then `setTitle(3)` on the example store,
with an empty external name table. -/
theorem setTitleWith_then_setTitle_round_trip_witness :
    ∃ s1 s2 k, setTitleWith [] sampleStore 3 "X" = .ok s1 ∧ slot (3 - 1) = .ok k ∧
      s1.titletr k = "X" ∧ s1.awincTitle = "X" ∧
      setTitle [] s1 3 = .ok s2 ∧ s2.awincTitle = "X" ∧ s2.titletr k = "X" :=
  setTitleWith_then_setTitle_round_trip [] sampleStore 3 "X" (by decide) (by decide)
    (by decide)

/-- C13, as amended: for every alternative `a` in 1..4 and every string `X`,
after `setTitle(a, X)` followed by `read(a)` the stored title `titletr[a-1]`
equals `titletrOriginal[a-1]`; `read(a)` leaves the active title `awincTitle` as
it was, equal to `X`, and a following `setTitle(a)` makes the active title the
published title. -/
theorem read_resets_stored_title_only (avgwage : List String) (s : AwincNonFile)
    (a : Int) (X : String) (hs : SeriesRange s) (h1 : 1 ≤ a) (h4 : a ≤ 4) :
    ∃ s1 s2 s3 k t, setTitleWith avgwage s a X = .ok s1 ∧ read s1 a = .ok s2 ∧
      slot (a - 1) = .ok k ∧ cArrayGet titletrOriginal (a - 1) = .ok t ∧
      s2.titletr k = t ∧ s2.awincTitle = X ∧
      setTitle avgwage s2 a = .ok s3 ∧ s3.awincTitle = t := by
  obtain ⟨k, rfl⟩ := alt_cases a h1 h4
  obtain ⟨hb, hl⟩ := seriesRange_bounds s hs k
  have e := read_eq
    { s with
      titletr := (Function.update s.titletr k X)
      awincTitle := X } k (by show (s.awincprojtr k).baseYear ≤ 2022; omega) hl
  refine ⟨_, _, _, k, titleAt k, setTitleWith_tr_eq avgwage s k X, e, slot_natCast k,
    title_lookup k, ?_, rfl, setTitle_tr_eq avgwage _ k, ?_⟩
  · simp only [Function.update_same]
  · simp only [Function.update_same]

/-- C13, witness: `setTitle(1, "X")`, `read(1)` and `setTitle(1)` on the example
store. -/
theorem read_resets_stored_title_only_witness :
    ∃ s1 s2 s3 k t, setTitleWith [] sampleStore 1 "X" = .ok s1 ∧ read s1 1 = .ok s2 ∧
      slot (1 - 1) = .ok k ∧ cArrayGet titletrOriginal (1 - 1) = .ok t ∧
      s2.titletr k = t ∧ s2.awincTitle = "X" ∧
      setTitle [] s2 1 = .ok s3 ∧ s3.awincTitle = t :=
  read_resets_stored_title_only [] sampleStore 1 "X"
    (fun _ => ⟨(by decide : (1951 : Int) ≤ 1978), (by decide : (2037 : Int) ≤ 2100)⟩)
    (by decide) (by decide)

/-- C13, counterexample: after `setTitle(1, "X")` and `read(1)` on the example
store the stored title of alternative 1 is the published one, but the active
title `awincTitle` is still "X" and not "2023 Trustees Report Alternative I". -/
theorem read_leaves_active_title :
    ∃ s1 s2, setTitleWith [] sampleStore 1 "X" = .ok s1 ∧ read s1 1 = .ok s2 ∧
      s2.titletr slotOne = "2023 Trustees Report Alternative I" ∧
      cArrayGet titletrOriginal (1 - 1) = .ok "2023 Trustees Report Alternative I" ∧
      s2.awincTitle = "X" ∧
      s2.awincTitle ≠ "2023 Trustees Report Alternative I" := by
  refine ⟨_, _, setTitleWith_tr_eq [] sampleStore slotOne "X", read_eq _ slotOne ?_ ?_,
    ?_, ?_, ?_, ?_⟩
  · decide
  · decide
  · rfl
  · rfl
  · rfl
  · decide

/-- C14: for every alternative number `a` that is not a Trustees Report
alternative and every string `X`, when the external name table has the entry
`avgwage[a - AssumptionType::FLAT]`, both `setTitle(a)` and `setTitle(a, X)`
return with the active title equal to that entry and every stored title
unchanged; `X` is discarded: `setTitle(a, X)` gives the result of `setTitle(a)`,
the same for every `X`. -/
theorem setTitle_not_tr_uses_name_table (avgwage : List String) (s : AwincNonFile)
    (a : Int) (X t : String) (hn : AssumptionType.isNotTR a = true)
    (ht : cArrayGet avgwage (a - AssumptionType.FLAT) = .ok t) :
    ∃ s1 s2, setTitle avgwage s a = .ok s1 ∧ setTitleWith avgwage s a X = .ok s2 ∧
      s1.awincTitle = t ∧ s2.awincTitle = t ∧
      (∀ j, s1.titletr j = s.titletr j) ∧ (∀ j, s2.titletr j = s.titletr j) ∧
      (∀ Y : String, setTitleWith avgwage s a Y = setTitleWith avgwage s a X) ∧
      setTitleWith avgwage s a X = setTitle avgwage s a := by
  have e1 := setTitle_nontr_eq avgwage s a t hn ht
  have e2 := setTitleWith_nontr avgwage s a X hn
  refine ⟨_, _, e1, e2.trans e1, rfl, rfl, fun _ => rfl, fun _ => rfl, ?_, e2⟩
  intro Y
  rw [setTitleWith_nontr avgwage s a Y hn, e2]

/-- C14, witness: alternative number 6 with a name table of three entries. -/
theorem setTitle_not_tr_uses_name_table_witness :
    ∃ s1 s2, setTitle ["flat", "pebs", "other"] sampleStore 6 = .ok s1 ∧
      setTitleWith ["flat", "pebs", "other"] sampleStore 6 "X" = .ok s2 ∧
      s1.awincTitle = "pebs" ∧ s2.awincTitle = "pebs" ∧
      (∀ j, s1.titletr j = sampleStore.titletr j) ∧
      (∀ j, s2.titletr j = sampleStore.titletr j) ∧
      (∀ Y : String, setTitleWith ["flat", "pebs", "other"] sampleStore 6 Y =
        setTitleWith ["flat", "pebs", "other"] sampleStore 6 "X") ∧
      setTitleWith ["flat", "pebs", "other"] sampleStore 6 "X" =
        setTitle ["flat", "pebs", "other"] sampleStore 6 :=
  setTitle_not_tr_uses_name_table ["flat", "pebs", "other"] sampleStore 6 "X" "pebs"
    (by decide) rfl

/-- C17: frame of restore.  For every alternative `a` in 1..4, `read(a)` returns
and changes only the stored title of `a` and the years from
`BaseYearNonFile::YEAR - 1` on of the stored series of `a`: the stored series and
stored titles of every other alternative, the range of the series of `a` and its
years before `YEAR - 1`, and the inherited members (the active series `awinc`,
the active title `awincTitle`, the first year) are unchanged. -/
theorem read_frame (s : AwincNonFile) (a : Int) (hs : SeriesRange s)
    (h1 : 1 ≤ a) (h4 : a ≤ 4) :
    ∃ s1 k, read s a = .ok s1 ∧ slot (a - 1) = .ok k ∧
      (∀ j, j ≠ k → s1.awincprojtr j = s.awincprojtr j ∧ s1.titletr j = s.titletr j) ∧
      (s1.awincprojtr k).getBaseYear = (s.awincprojtr k).getBaseYear ∧
      (s1.awincprojtr k).getLastYear = (s.awincprojtr k).getLastYear ∧
      (∀ y : Int, y < BaseYearNonFile.YEAR - 1 →
        (s1.awincprojtr k).theData y = (s.awincprojtr k).theData y ∧
        (s1.awincprojtr k).get y = (s.awincprojtr k).get y) ∧
      s1.awinc = s.awinc ∧ s1.awincTitle = s.awincTitle ∧
      s1.getFirstYear = s.getFirstYear := by
  obtain ⟨k, rfl⟩ := alt_cases a h1 h4
  obtain ⟨hb, hl⟩ := seriesRange_bounds s hs k
  refine ⟨_, k, read_eq s k (by omega) hl, slot_natCast k, ?_, ?_, ?_, ?_, rfl, rfl, rfl⟩
  · intro j hj
    constructor
    · show Function.update s.awincprojtr k _ j = _
      rw [Function.update_noteq hj]
    · show Function.update s.titletr k _ j = _
      rw [Function.update_noteq hj]
  · show (Function.update s.awincprojtr k _ k).baseYear = _
    rw [Function.update_same, restored_baseYear]
    rfl
  · show (Function.update s.awincprojtr k _ k).lastYear = _
    rw [Function.update_same, restored_lastYear]
    rfl
  · intro y hy
    have hy2 : y < 2022 := by
      simp only [BaseYearNonFile.YEAR] at hy; omega
    constructor
    · show (Function.update s.awincprojtr k _ k).theData y = _
      rw [Function.update_same]
      exact restored_theData_before k _ y hy2
    · show (Function.update s.awincprojtr k _ k).get y = _
      rw [Function.update_same]
      exact restored_get_before k _ y hy2

/-- C17, witness: `read(2)` on the example store. -/
theorem read_frame_witness :
    ∃ s1 k, read sampleStore 2 = .ok s1 ∧ slot (2 - 1) = .ok k ∧
      (∀ j, j ≠ k → s1.awincprojtr j = sampleStore.awincprojtr j ∧
        s1.titletr j = sampleStore.titletr j) ∧
      (s1.awincprojtr k).getBaseYear = (sampleStore.awincprojtr k).getBaseYear ∧
      (s1.awincprojtr k).getLastYear = (sampleStore.awincprojtr k).getLastYear ∧
      (∀ y : Int, y < BaseYearNonFile.YEAR - 1 →
        (s1.awincprojtr k).theData y = (sampleStore.awincprojtr k).theData y ∧
        (s1.awincprojtr k).get y = (sampleStore.awincprojtr k).get y) ∧
      s1.awinc = sampleStore.awinc ∧ s1.awincTitle = sampleStore.awincTitle ∧
      s1.getFirstYear = sampleStore.getFirstYear :=
  read_frame sampleStore 2
    (fun _ => ⟨(by decide : (1951 : Int) ≤ 1978), (by decide : (2037 : Int) ≤ 2100)⟩)
    (by decide) (by decide)

/-- C18: frame of override.  For every Trustees Report alternative `a` and every
series `newData`, a `setData(a, newData)` that returns leaves the stored series
of every other alternative, every stored title, the active title and the first
year unchanged, keeps the range of the active series and leaves its years before
`max(getFirstYear(), awinc.getBaseYear())` unchanged; it returns whenever the
stored series of `a` reaches `getFirstYear()` and the active series reaches that
maximum.  A `setData(a)` that returns changes no stored series and no stored
title, and it returns whenever the active series reaches the maximum. -/
theorem setDataWith_frame (s : AwincNonFile) (a : Int) (newData : DoubleAnnual)
    (k : Fin NUMASSUMSETS) (htr : AssumptionType.isTR a = true) (hk : slot (a - 1) = .ok k) :
    (∀ s1, setDataWith s a newData = .ok s1 →
      (∀ j, j ≠ k → s1.awincprojtr j = s.awincprojtr j) ∧
      (∀ j, s1.titletr j = s.titletr j) ∧ s1.awincTitle = s.awincTitle ∧
      s1.getFirstYear = s.getFirstYear ∧
      s1.awinc.getBaseYear = s.awinc.getBaseYear ∧
      s1.awinc.getLastYear = s.awinc.getLastYear ∧
      ∀ y : Int, y < max s.getFirstYear s.awinc.getBaseYear →
        s1.awinc.theData y = s.awinc.theData y ∧ s1.awinc.get y = s.awinc.get y) ∧
    ((s.awincprojtr k).getBaseYear ≤ (s.awincprojtr k).getLastYear →
      s.getFirstYear ≤ (s.awincprojtr k).getLastYear →
      max s.getFirstYear s.awinc.getBaseYear ≤ s.awinc.getLastYear →
      ∃ s1, setDataWith s a newData = .ok s1) ∧
    (∀ s2, setData s a = .ok s2 →
      (∀ j, s2.awincprojtr j = s.awincprojtr j) ∧ (∀ j, s2.titletr j = s.titletr j)) ∧
    (max s.getFirstYear s.awinc.getBaseYear ≤ s.awinc.getLastYear →
      ∃ s2, setData s a = .ok s2) := by
  have ha : a = (k.val : Int) + 1 := by have := slot_inv _ _ hk; omega
  subst ha
  refine ⟨?_, ?_, ?_, ?_⟩
  · intro s1 h
    rcases setDataWith_inv s s1 _ newData h with ⟨hf, _⟩ | ⟨_, k2, d, hk2, hd, h2⟩
    · rw [htr] at hf
      cases hf
    · have hkk : k2 = k := by
        rw [hk] at hk2
        injection hk2 with hk2
        exact hk2.symm
      subst hkk
      obtain ⟨f1, f2, f3, f4, f5, f6, f7⟩ := setData_frame _ s1 _ h2
      refine ⟨fun j hj => ?_, fun j => ?_, f3, f4, f5, f6, fun y hy => ?_⟩
      · rw [f1]
        show Function.update s.awincprojtr k2 d j = _
        rw [Function.update_noteq hj]
      · rw [f2]
      · have e := f7 y hy
        refine ⟨e, ?_⟩
        simp only [DoubleAnnual.get, f5, f6, e]
  · intro c1 c2 c3
    exact ⟨_, setDataWith_tr_eq s k newData c1 c2 c3⟩
  · intro s2 h
    obtain ⟨f1, f2, _⟩ := setData_frame s s2 _ h
    exact ⟨fun j => by rw [f1], fun j => by rw [f2]⟩
  · intro c3
    exact ⟨_, setData_tr_eq s k c3⟩

/-- C18, witness: `setData(1, custom)` on the example store returns and leaves
the other stored series, the stored titles and the active title as they were, and
`setData(1)` returns and leaves every stored series as it was. -/
theorem setDataWith_frame_witness :
    (∃ s1, setDataWith sampleStore 1 sampleCustom = .ok s1 ∧
      (∀ j, j ≠ slotOne → s1.awincprojtr j = sampleStore.awincprojtr j) ∧
      (∀ j, s1.titletr j = sampleStore.titletr j) ∧
      s1.awincTitle = sampleStore.awincTitle) ∧
    (∃ s2, setData sampleStore 1 = .ok s2 ∧
      ∀ j, s2.awincprojtr j = sampleStore.awincprojtr j) := by
  have h := setDataWith_frame sampleStore 1 sampleCustom slotOne (by decide) rfl
  obtain ⟨s1, e1⟩ := h.2.1 (by decide) (by decide) (by decide)
  obtain ⟨s2, e2⟩ := h.2.2.2 (by decide)
  obtain ⟨f1, f2, f3, _⟩ := h.1 s1 e1
  exact ⟨⟨s1, e1, f1, f2, f3⟩, ⟨s2, e2, (h.2.2.1 s2 e2).1⟩⟩

/-- C19: for every alternative number `a` that is not a Trustees Report
alternative and every series `newData`, `setData(a, newData)` has exactly the
result of `setData(a)`, so two calls with different series give identical
results; when the active series reaches `max(getFirstYear(),
awinc.getBaseYear())` the call returns, no stored series is modified and the
active series is 0.0 in every year from that maximum through
`awinc.getLastYear()`. -/
theorem setDataWith_not_tr_ignores_newData (s : AwincNonFile) (a : Int)
    (newData : DoubleAnnual) (hn : AssumptionType.isTR a = false) :
    setDataWith s a newData = setData s a ∧
    (∀ other : DoubleAnnual, setDataWith s a other = setDataWith s a newData) ∧
    (max s.getFirstYear s.awinc.getBaseYear ≤ s.awinc.getLastYear →
      ∃ s1, setDataWith s a newData = .ok s1 ∧
        (∀ j, s1.awincprojtr j = s.awincprojtr j) ∧
        ∀ y : Int, max s.getFirstYear s.awinc.getBaseYear ≤ y → y ≤ s.awinc.getLastYear →
          s1.awinc.get y = .ok 0.0) := by
  have e : ∀ d : DoubleAnnual, setDataWith s a d = setData s a := by
    intro d
    unfold setDataWith
    simp only [hn]
    rfl
  refine ⟨e newData, fun other => by rw [e other, e newData], ?_⟩
  intro c
  simp only [DoubleAnnual.getBaseYear, DoubleAnnual.getLastYear, getFirstYear] at c
  refine ⟨_, (e newData).trans (setData_nontr_eq s a hn c), fun _ => rfl, ?_⟩
  intro y hy1 hy2
  simp only [DoubleAnnual.getBaseYear, DoubleAnnual.getLastYear, getFirstYear] at hy1 hy2
  have hb : s.awinc.baseYear ≤ max s.firstYear s.awinc.baseYear := le_max_right _ _
  have c2 : max s.firstYear s.awinc.baseYear ≤ y ∧ y ≤ s.awinc.lastYear ∧
      s.awinc.baseYear ≤ y ∧ y ≤ s.awinc.lastYear := ⟨hy1, hy2, by omega, hy2⟩
  show (s.awinc.filled 0.0 _ _).get y = _
  rw [get_of_mem _ _ (by show s.awinc.baseYear ≤ y; omega) (by show y ≤ s.awinc.lastYear; omega)]
  simp only [DoubleAnnual.filled, if_pos c2]

/-- C19, witness: alternative number 5 on the example store, with two different
series. -/
theorem setDataWith_not_tr_ignores_newData_witness :
    setDataWith sampleStore 5 sampleCustom = setData sampleStore 5 ∧
    setDataWith sampleStore 5 sampleCustomShort = setDataWith sampleStore 5 sampleCustom ∧
    ∃ s1, setDataWith sampleStore 5 sampleCustom = .ok s1 ∧
      (∀ j, s1.awincprojtr j = sampleStore.awincprojtr j) ∧
      ∀ y : Int, max sampleStore.getFirstYear sampleStore.awinc.getBaseYear ≤ y →
        y ≤ sampleStore.awinc.getLastYear → s1.awinc.get y = .ok 0.0 := by
  obtain ⟨h1, h2, h3⟩ := setDataWith_not_tr_ignores_newData sampleStore 5 sampleCustom
    (by decide)
  exact ⟨h1, h2 sampleCustomShort, h3 (by decide)⟩

end AwincNonFile

theorem forLoopInt_of_forLoop {σ : Type} (body : Int → σ → Except Err σ) :
    ∀ (n : Nat) (lo : Int) (s s1 : σ), forLoop n lo body s = .ok s1 →
      lo + n ≤ INT_MAX →
      forLoopInt n lo (fun y t => liftErr (body y t)) s = .ok s1 := by
  intro n
  induction n with
  | zero =>
    intro lo s s1 h _
    simp only [forLoop] at h
    simp only [forLoopInt]
    injection h with h
    rw [h]
  | succ k ih =>
    intro lo s s1 h hm
    simp only [forLoop] at h
    simp only [forLoopInt]
    cases hb : body lo s with
    | error e => rw [hb] at h; cases h
    | ok s2 =>
      rw [hb] at h
      have hc : lo + 1 ≤ INT_MAX := by push_cast at hm; omega
      simp only [liftErr, if_pos hc]
      exact ih (lo + 1) s2 s1 h (by push_cast at hm ⊢; omega)

theorem forLoopInt_overflow {σ : Type} (body : Int → σ → Except Err σ) :
    ∀ (n : Nat) (lo : Int) (s s1 : σ), forLoop n lo body s = .ok s1 →
      0 < n → INT_MAX < lo + n →
      forLoopInt n lo (fun y t => liftErr (body y t)) s = .error MachineErr.signedOverflow := by
  intro n
  induction n with
  | zero =>
    intro lo s s1 _ h0 _
    exact absurd h0 (Nat.lt_irrefl 0)
  | succ k ih =>
    intro lo s s1 h _ hm
    simp only [forLoop] at h
    simp only [forLoopInt]
    cases hb : body lo s with
    | error e => rw [hb] at h; cases h
    | ok s2 =>
      rw [hb] at h
      simp only [liftErr]
      by_cases hc : lo + 1 ≤ INT_MAX
      · rw [if_pos hc]
        have hk : 0 < k := by
          push_cast at hm
          omega
        exact ih (lo + 1) s2 s1 h hk (by push_cast at hm ⊢; omega)
      · rw [if_neg hc]

theorem liftErr_ok {α : Type} (a : α) :
    liftErr (Except.ok a : Except Err α) = Except.ok a := rfl

theorem liftErr_error {α : Type} (e : Err) :
    liftErr (Except.error e : Except Err α) = Except.error (MachineErr.raised e) := rfl

namespace AwincNonFile

theorem read_loops (s : AwincNonFile) (k : Fin NUMASSUMSETS)
    (hb : (s.awincprojtr k).baseYear ≤ 2022) (hl : 2037 ≤ (s.awincprojtr k).lastYear) :
    forLoop 16 2022
      (fun year t => do
        let row ← cArrayGet awincprojtrOriginal ((k.val : Int) + 1 - 1)
        let v ← cArrayGet row (year - BaseYearNonFile.YEAR + 1)
        t.set year v) (s.awincprojtr k) = .ok ((s.awincprojtr k).fill 2022 16 (projAt k)) ∧
    forLoop ((s.awincprojtr k).lastYear + 1 - 2038).toNat 2038
      (fun year t => do
        let v ← cArrayGet awincult ((k.val : Int) + 1 - 1)
        t.set year v) ((s.awincprojtr k).fill 2022 16 (projAt k)) =
      .ok (restored k (s.awincprojtr k)) := by
  constructor
  · exact DoubleAnnual.forLoop_set (projAt k) _ 16 2022 (s.awincprojtr k)
      (fun y t h1 h2 => read_short_body k y t h1 h2) hb (by simp; omega)
  · exact DoubleAnnual.forLoop_set (fun _ => ultAt k) _
      ((s.awincprojtr k).lastYear + 1 - 2038).toNat 2038
      ((s.awincprojtr k).fill 2022 16 (projAt k))
      (fun y t _ _ => read_long_body k y t) (by simp [DoubleAnnual.fill]; omega)
      (by simp [DoubleAnnual.fill]; omega)

theorem readBodyInt_eq (s : AwincNonFile) (k : Fin NUMASSUMSETS)
    (hb : (s.awincprojtr k).baseYear ≤ 2022) (hl : 2037 ≤ (s.awincprojtr k).lastYear)
    (hm : (s.awincprojtr k).lastYear < INT_MAX) :
    readBodyInt s ((k.val : Int) + 1) = .ok { s with
      titletr := Function.update s.titletr k (titleAt k)
      awincprojtr := Function.update s.awincprojtr k (restored k (s.awincprojtr k)) } := by
  have hn1 : (BaseYearNonFile.YEAR + NUMPROJYEARS - 2 + 1 - (BaseYearNonFile.YEAR - 1)).toNat = 16 := by
    decide
  have hy1 : BaseYearNonFile.YEAR - 1 = 2022 := by decide
  have hy2 : BaseYearNonFile.YEAR + NUMPROJYEARS - 2 + 1 = 2038 := by decide
  obtain ⟨loop1, loop2⟩ := read_loops s k hb hl
  have m1 := forLoopInt_of_forLoop _ 16 2022 _ _ loop1 (by decide)
  have m2 := forLoopInt_of_forLoop _ _ 2038 _ _ loop2 (by omega)
  unfold readBodyInt
  simp only [slot_natCast, title_lookup, liftErr_ok, hn1, hy1, hy2, Function.update_same,
    DoubleAnnual.getLastYear]
  show (forLoopInt 16 2022 _ (s.awincprojtr k) >>= _) = _
  rw [m1]
  show (forLoopInt _ 2038 _ ((s.awincprojtr k).fill 2022 16 (projAt k)) >>= _) = _
  rw [show ((s.awincprojtr k).fill 2022 16 (projAt k)).lastYear = (s.awincprojtr k).lastYear from rfl]
  rw [m2]
  simp [Function.update_idem]

theorem readBodyInt_overflow (s : AwincNonFile) (k : Fin NUMASSUMSETS)
    (hb : (s.awincprojtr k).baseYear ≤ 2022) (hm : INT_MAX ≤ (s.awincprojtr k).lastYear) :
    readBodyInt s ((k.val : Int) + 1) = .error MachineErr.signedOverflow := by
  have hn1 : (BaseYearNonFile.YEAR + NUMPROJYEARS - 2 + 1 - (BaseYearNonFile.YEAR - 1)).toNat = 16 := by
    decide
  have hy1 : BaseYearNonFile.YEAR - 1 = 2022 := by decide
  have hy2 : BaseYearNonFile.YEAR + NUMPROJYEARS - 2 + 1 = 2038 := by decide
  have hI : INT_MAX = 2147483647 := rfl
  have hl : 2037 ≤ (s.awincprojtr k).lastYear := by omega
  obtain ⟨loop1, loop2⟩ := read_loops s k hb hl
  have m1 := forLoopInt_of_forLoop _ 16 2022 _ _ loop1 (by decide)
  have m2 := forLoopInt_overflow _ _ 2038 _ _ loop2 (by omega) (by omega)
  unfold readBodyInt
  simp only [slot_natCast, title_lookup, liftErr_ok, hn1, hy1, hy2, Function.update_same,
    DoubleAnnual.getLastYear]
  show (forLoopInt 16 2022 _ (s.awincprojtr k) >>= _) = _
  rw [m1]
  show (forLoopInt _ 2038 _ ((s.awincprojtr k).fill 2022 16 (projAt k)) >>= _) = _
  rw [show ((s.awincprojtr k).fill 2022 16 (projAt k)).lastYear = (s.awincprojtr k).lastYear from rfl]
  rw [m2]
  rfl

theorem readInt_eq (s : AwincNonFile) (k : Fin NUMASSUMSETS)
    (hb : (s.awincprojtr k).baseYear ≤ 2022) (hl : 2037 ≤ (s.awincprojtr k).lastYear)
    (hm : (s.awincprojtr k).lastYear < INT_MAX) :
    readInt s ((k.val : Int) + 1) = .ok { s with
      titletr := Function.update s.titletr k (titleAt k)
      awincprojtr := Function.update s.awincprojtr k (restored k (s.awincprojtr k)) } := by
  unfold readInt
  rw [readBodyInt_eq s k hb hl hm]

theorem readInt_overflow (s : AwincNonFile) (k : Fin NUMASSUMSETS)
    (hb : (s.awincprojtr k).baseYear ≤ 2022) (hm : INT_MAX ≤ (s.awincprojtr k).lastYear) :
    readInt s ((k.val : Int) + 1) = .error MachineErr.signedOverflow := by
  unfold readInt
  rw [readBodyInt_overflow s k hb hm]

theorem hist_loop (fresh : Int → ℚ) (yr1 yr2 : Int) (h1 : yr1 ≤ 1978) (h2 : 2037 ≤ yr2) :
    forLoop 44 1978
      (fun year t => do
        let v ← cArrayGet awincHist (year - (YEAR79 - 1))
        t.set year v) (DoubleAnnual.create fresh yr1 yr2) =
      .ok ((DoubleAnnual.create fresh yr1 yr2).fill 1978 44 histAt) :=
  DoubleAnnual.forLoop_set histAt _ 44 1978 (DoubleAnnual.create fresh yr1 yr2)
    (fun y t a b => hist_body y t a b) h1 (by simp [DoubleAnnual.create]; omega)

theorem constructAltInt_eq (fresh : Int → ℚ) (yr1 yr2 : Int) (k : Fin NUMASSUMSETS) (i : Int)
    (hi : i = (k.val : Int)) (s : AwincNonFile) (h1 : yr1 ≤ 1978) (h2 : 2037 ≤ yr2)
    (hm : yr2 < INT_MAX) :
    constructAltInt fresh yr1 yr2 i s = .ok { s with
      titletr := Function.update s.titletr k (titleAt k)
      awincprojtr := Function.update s.awincprojtr k
        (restored k ((DoubleAnnual.create fresh yr1 yr2).fill 1978 44 histAt)) } := by
  subst hi
  have hn : (BaseYearNonFile.YEAR - 1 - (YEAR79 - 1)).toNat = 44 := by decide
  have hy : YEAR79 - 1 = 1978 := by decide
  have m := forLoopInt_of_forLoop _ 44 1978 _ _ (hist_loop fresh yr1 yr2 h1 h2) (by decide)
  unfold constructAltInt
  simp only [slot_val, liftErr_ok, hn]
  show (forLoopInt 44 (YEAR79 - 1) _ (DoubleAnnual.create fresh yr1 yr2) >>= _) = _
  rw [hy] at m ⊢
  rw [m]
  show readInt _ ((k.val : Int) + 1) = _
  rw [readInt_eq _ k (by simp [DoubleAnnual.fill, DoubleAnnual.create]; omega)
    (by simp [DoubleAnnual.fill, DoubleAnnual.create]; omega)
    (by simp [DoubleAnnual.fill, DoubleAnnual.create]; omega)]
  simp [Function.update_idem]

theorem constructAltInt_overflow (fresh : Int → ℚ) (yr1 yr2 : Int) (k : Fin NUMASSUMSETS)
    (i : Int) (hi : i = (k.val : Int)) (s : AwincNonFile) (h1 : yr1 ≤ 1978)
    (hm : INT_MAX ≤ yr2) :
    constructAltInt fresh yr1 yr2 i s = .error MachineErr.signedOverflow := by
  subst hi
  have hn : (BaseYearNonFile.YEAR - 1 - (YEAR79 - 1)).toNat = 44 := by decide
  have hy : YEAR79 - 1 = 1978 := by decide
  have hI : INT_MAX = 2147483647 := rfl
  have m := forLoopInt_of_forLoop _ 44 1978 _ _
    (hist_loop fresh yr1 yr2 h1 (by omega)) (by decide)
  unfold constructAltInt
  simp only [slot_val, liftErr_ok, hn]
  show (forLoopInt 44 (YEAR79 - 1) _ (DoubleAnnual.create fresh yr1 yr2) >>= _) = _
  rw [hy] at m ⊢
  rw [m]
  show readInt _ ((k.val : Int) + 1) = _
  rw [readInt_overflow _ k (by simp [DoubleAnnual.fill, DoubleAnnual.create]; omega)
    (by simp [DoubleAnnual.fill, DoubleAnnual.create]; omega)]

theorem constructInt_eq (doc : AwincDoc) (fresh : Int → ℚ) (newIstart newMaxyear : Int)
    (hm : newMaxyear < INT_MAX) :
    constructInt doc fresh newIstart newMaxyear =
      .ok (built doc fresh (min 1978 newIstart) (max 2037 newMaxyear)) := by
  have h1 : min (1978 : Int) newIstart ≤ 1978 := min_le_left _ _
  have h2 : (2037 : Int) ≤ max 2037 newMaxyear := le_max_left _ _
  have h3 : max 2037 newMaxyear < INT_MAX := max_lt (by decide) hm
  have e0 := fun s => constructAltInt_eq fresh _ _ (⟨0, by decide⟩ : Fin NUMASSUMSETS) 0
    (by decide) s h1 h2 h3
  have e1 := fun s => constructAltInt_eq fresh _ _ (⟨1, by decide⟩ : Fin NUMASSUMSETS) (0 + 1)
    (by decide) s h1 h2 h3
  have e2 := fun s => constructAltInt_eq fresh _ _ (⟨2, by decide⟩ : Fin NUMASSUMSETS)
    (0 + 1 + 1) (by decide) s h1 h2 h3
  have e3 := fun s => constructAltInt_eq fresh _ _ (⟨3, by decide⟩ : Fin NUMASSUMSETS)
    (0 + 1 + 1 + 1) (by decide) s h1 h2 h3
  have c0 : (0 : Int) + 1 ≤ INT_MAX := by decide
  have c1 : (0 : Int) + 1 + 1 ≤ INT_MAX := by decide
  have c2 : (0 : Int) + 1 + 1 + 1 ≤ INT_MAX := by decide
  have c3 : (0 : Int) + 1 + 1 + 1 + 1 ≤ INT_MAX := by decide
  unfold constructInt
  show forLoopInt 4 0 (constructAltInt fresh (min 1978 newIstart) (max 2037 newMaxyear))
    (blank doc) = _
  simp only [forLoopInt, e0, e1, e2, e3, if_pos c0, if_pos c1, if_pos c2, if_pos c3]
  congr 1
  simp only [built, blank]
  congr 1
  · funext k
    fin_cases k <;> rfl
  · funext k
    fin_cases k <;> rfl

theorem constructInt_overflow (doc : AwincDoc) (fresh : Int → ℚ) (newIstart newMaxyear : Int)
    (hm : INT_MAX ≤ newMaxyear) :
    constructInt doc fresh newIstart newMaxyear = .error MachineErr.signedOverflow := by
  have h1 : min (1978 : Int) newIstart ≤ 1978 := min_le_left _ _
  have h3 : INT_MAX ≤ max 2037 newMaxyear := le_trans hm (le_max_right _ _)
  have e0 := fun s => constructAltInt_overflow fresh _ _ (⟨0, by decide⟩ : Fin NUMASSUMSETS) 0
    (by decide) s h1 h3
  unfold constructInt
  show forLoopInt 4 0 (constructAltInt fresh (min 1978 newIstart) (max 2037 newMaxyear))
    (blank doc) = _
  simp only [forLoopInt, e0]

/-- C16, as amended: construction and restore stay in bounds for every pair of
constructor arguments with `newMaxyear` below `INT_MAX` and every alternative `a`
in 1..4.  With 32-bit loop counters the constructor returns without raising, and
so does `read(a)` on the object it built, with the results they have over `Int`;
every year of the historical loop, of the short-range loop and of the long-range
loop lies in the series range
`[min(1978, newIstart), max(YEAR+NUMPROJYEARS-2, newMaxyear)]`; every index
`year-1978` used on `awincHist` lies in `[0, 44)` and every index `year-YEAR+1`
used on a row of `awincprojtrOriginal` lies in `[0, NUMPROJYEARS)`, and the
elements read exist; the largest value a loop counter takes, the last year plus
one, is an `int`. -/
theorem construct_and_read_stay_in_bounds (doc : AwincDoc) (fresh : Int → ℚ)
    (newIstart newMaxyear a : Int) (h1 : 1 ≤ a) (h4 : a ≤ 4) (hm : newMaxyear < INT_MAX) :
    (∃ s s1, constructInt doc fresh newIstart newMaxyear = .ok s ∧ readInt s a = .ok s1 ∧
      construct doc fresh newIstart newMaxyear = .ok s ∧ read s a = .ok s1) ∧
    (∀ year : Int, YEAR79 - 1 ≤ year → year < BaseYearNonFile.YEAR - 1 →
      (min (YEAR79 - 1) newIstart ≤ year ∧
        year ≤ max (BaseYearNonFile.YEAR + NUMPROJYEARS - 2) newMaxyear) ∧
      (0 ≤ year - (YEAR79 - 1) ∧ year - (YEAR79 - 1) < 44 ∧ awincHist.length = 44) ∧
      ∃ v, cArrayGet awincHist (year - (YEAR79 - 1)) = .ok v) ∧
    (∀ year : Int, BaseYearNonFile.YEAR - 1 ≤ year →
      year ≤ BaseYearNonFile.YEAR + NUMPROJYEARS - 2 →
      (min (YEAR79 - 1) newIstart ≤ year ∧
        year ≤ max (BaseYearNonFile.YEAR + NUMPROJYEARS - 2) newMaxyear) ∧
      (0 ≤ year - BaseYearNonFile.YEAR + 1 ∧ year - BaseYearNonFile.YEAR + 1 < NUMPROJYEARS) ∧
      ∃ v, (cArrayGet awincprojtrOriginal (a - 1) >>= fun row =>
        cArrayGet row (year - BaseYearNonFile.YEAR + 1)) = .ok v) ∧
    (∀ year : Int, BaseYearNonFile.YEAR + NUMPROJYEARS - 2 + 1 ≤ year →
      year ≤ max (BaseYearNonFile.YEAR + NUMPROJYEARS - 2) newMaxyear →
      (min (YEAR79 - 1) newIstart ≤ year ∧
        year ≤ max (BaseYearNonFile.YEAR + NUMPROJYEARS - 2) newMaxyear) ∧
      ∃ v, cArrayGet awincult (a - 1) = .ok v) ∧
    max (BaseYearNonFile.YEAR + NUMPROJYEARS - 2) newMaxyear + 1 ≤ INT_MAX := by
  obtain ⟨k, rfl⟩ := alt_cases a h1 h4
  have hmin : min (1978 : Int) newIstart ≤ 1978 := min_le_left _ _
  have hmax : (2037 : Int) ≤ max 2037 newMaxyear := le_max_left _ _
  have hlt : max 2037 newMaxyear < INT_MAX := max_lt (by decide) hm
  have e78 : YEAR79 - 1 = 1978 := by decide
  have e22 : BaseYearNonFile.YEAR - 1 = 2022 := by decide
  have e37 : BaseYearNonFile.YEAR + NUMPROJYEARS - 2 = 2037 := by decide
  have e16 : NUMPROJYEARS = 16 := rfl
  have eY : BaseYearNonFile.YEAR = 2023 := rfl
  obtain ⟨hb, hl⟩ := seriesRange_bounds _ (built_seriesRange doc fresh newIstart newMaxyear) k
  refine ⟨⟨_, _, constructInt_eq doc fresh newIstart newMaxyear hm,
    readInt_eq _ k (by omega) hl (by rw [built_lastYear]; exact hlt),
    construct_eq doc fresh newIstart newMaxyear, read_eq _ k (by omega) hl⟩, ?_, ?_, ?_, ?_⟩
  · intro year hy1 hy2
    rw [e78] at hy1 ⊢
    rw [e22] at hy2
    rw [e37]
    exact ⟨⟨by omega, by omega⟩, ⟨by omega, by omega, rfl⟩, _,
      by rw [← e78]; exact hist_lookup year hy1 (by omega)⟩
  · intro year hy1 hy2
    rw [e22] at hy1
    rw [e37] at hy2 ⊢
    rw [e78, e16, eY]
    refine ⟨⟨by omega, by omega⟩, ⟨by omega, by omega⟩, projAt k year, ?_⟩
    have h := proj_lookup k year hy1 hy2
    have e : year - (BaseYearNonFile.YEAR - 1) = year - 2023 + 1 := by rw [eY]; omega
    rwa [e] at h
  · intro year hy1 hy2
    rw [e37] at hy1 hy2 ⊢
    rw [e78]
    exact ⟨⟨by omega, hy2⟩, _, ult_lookup k⟩
  · rw [e37]
    omega

/-- C16, witness: `AwincNonFile(1951, 2100)` and `read(4)`, with 32-bit loop
counters. -/
theorem construct_and_read_stay_in_bounds_witness :
    ∃ s s1, constructInt sampleDoc sampleFresh 1951 2100 = .ok s ∧ readInt s 4 = .ok s1 ∧
      construct sampleDoc sampleFresh 1951 2100 = .ok s ∧ read s 4 = .ok s1 :=
  (construct_and_read_stay_in_bounds sampleDoc sampleFresh 1951 2100 4
    (by decide) (by decide) (by decide)).1

/-- C16, counterexample: `AwincNonFile(1951, INT_MAX)`.  The series end in
`INT_MAX` = 2147483647, and the long-range loop of the first `read` increments
its counter past the last year: a signed overflow, so the constructor does not
return. -/
theorem construct_counter_overflows_at_int_max :
    INT_MAX = 2147483647 ∧
    constructInt sampleDoc sampleFresh 1951 INT_MAX = .error MachineErr.signedOverflow :=
  ⟨rfl, constructInt_overflow sampleDoc sampleFresh 1951 INT_MAX (le_refl _)⟩

end AwincNonFile
